import Mathlib

/-!
W15Q64 serial flash driver: command sequencing and bit packing.

A shallow embedding of `Lib_H_W15Q64_flash_memory.c` / `.h`.

* `uint8_t`, `uint16_t` and `uint32_t` values are natural numbers; a cast to
  `uint8_t` is an explicit `% 256`.
* The transport `W15Q64spi_t` is a struct of four function pointers supplied by
  the caller.  It is embedded as a recording transport: every call through one
  of the pointers appends one `BusEvent` to `trace`, and `receive` hands out the
  bytes the device shifts out, taken from `rx`.
* C arrays are lists; reads and writes through an index are checked, and the
  two `for` loops keep their 8-bit counter and run on fuel, so that neither the
  termination of a loop nor the range of its indices is built into the model.
-/

namespace W15Q64

/-! ## Instruction opcodes and register indices (the header) -/

def W15Q64_WRITE_ENABLE : Nat := 0x06
def W15Q64_VOLATILE_SR_WRITE_EN : Nat := 0x50
def W15Q64_WRITE_DIS : Nat := 0x04
def W15Q64_READ_STATUS_REGISTER_1 : Nat := 0x05
def W15Q64_READ_STATUS_REGISTER_2 : Nat := 0x35
def W15Q64_WRITE_STATUS_REGISTER : Nat := 0x01
def W15Q64_PAGE_PROGRAM : Nat := 0x02
def W15Q64_SECTOR_ERASE_4KB : Nat := 0x20
def W15Q64_BLOCK_ERASE_32KB : Nat := 0x52
def W15Q64_BLOCK_ERASE_64KB : Nat := 0xD8
def W15Q64_CHIP_ERASE : Nat := 0xC7
def W15Q64_ERASE_PROGRAM_SUSPEND : Nat := 0x75
def W15Q64_ERASE_PROGRAM_RESUME : Nat := 0x7A
def W15Q64_POWER_DOWN : Nat := 0xB9
def W15Q64_READ_DATA : Nat := 0x03
def W15Q64_FAST_READ : Nat := 0x0B
def W15Q64_RELEASE_POWER_DOWN : Nat := 0xAB
def W15Q64_READ_SECURITY_REGISTER : Nat := 0x48

/-- Index of the last flag of status register 1 (`enum W15Q64_statReg1`). -/
def W15Q64_SRP0 : Nat := 7

/-! ## The transport -/

/-- One call through a function pointer of `W15Q64spi_t`. -/
inductive BusEvent where
  /-- A call `spi->sc_ON()`. -/
  | select
  /-- A call `spi->cs_OFF()`. -/
  | deselect
  /-- A call `spi->transmit(p, cnt)`: the `cnt` bytes read at `p`. -/
  | transmit (bytes : List Nat)
  /-- A call `spi->receive(p, cnt)`. -/
  | receive (cnt : Nat)
  deriving DecidableEq, Repr

/-- The transport: the calls made so far and the bytes the device will answer with. -/
structure W15Q64spi_t where
  trace : List BusEvent
  rx : List Nat
  deriving DecidableEq, Repr

/-- The call `spi->sc_ON()`. -/
def sc_ON (spi : W15Q64spi_t) : W15Q64spi_t :=
  { spi with trace := spi.trace ++ [BusEvent.select] }

/-- The call `spi->cs_OFF()`. -/
def cs_OFF (spi : W15Q64spi_t) : W15Q64spi_t :=
  { spi with trace := spi.trace ++ [BusEvent.deselect] }

/-- The call `spi->transmit(pTxData, cnt)`: the first `cnt` bytes of the buffer go out. -/
def transmit (spi : W15Q64spi_t) (pTxData : List Nat) (cnt : Nat) : W15Q64spi_t :=
  { spi with trace := spi.trace ++ [BusEvent.transmit (pTxData.take cnt)] }

/-- The call `spi->receive(pRxData, cnt)`: up to `cnt` bytes answered by the device
overwrite the front of the buffer; the rest of the buffer keeps its contents. -/
def receive (spi : W15Q64spi_t) (pRxData : List Nat) (cnt : Nat) :
    W15Q64spi_t × List Nat :=
  ({ trace := spi.trace ++ [BusEvent.receive cnt], rx := spi.rx.drop cnt },
   spi.rx.take cnt ++ pRxData.drop (spi.rx.take cnt).length)

/-! ## Checked array access -/

/-- What can go wrong in a loop of the driver. -/
inductive Fault where
  /-- The loop did not leave within the fuel it was given. -/
  | outOfFuel
  /-- An array was indexed outside its bounds. -/
  | outOfBounds
  deriving DecidableEq, Repr

deriving instance DecidableEq for Except

/-- The read `xs[i]`. -/
def rd {α : Type} (xs : List α) (i : Nat) : Except Fault α :=
  match xs[i]? with
  | some v => Except.ok v
  | none => Except.error Fault.outOfBounds

/-- The write `xs[i] = v`. -/
def wr {α : Type} (xs : List α) (i : Nat) (v : α) : Except Fault (List α) :=
  if i < xs.length then Except.ok (xs.set i v) else Except.error Fault.outOfBounds

/-- Fuel that outlasts every loop over an 8-bit counter whose exit test looks at the
counter alone: after 256 rounds the counter has taken every value it can take. -/
def loopFuel : Nat := 257

/-! ## Local functions -/

/-- `W15Q64_AddrTo3Arr`: the three bytes stored through `pAddr`. -/
def W15Q64_AddrTo3Arr (addr : Nat) : List Nat :=
  [((addr >>> 16) &&& 0xFF) % 256, ((addr >>> 8) &&& 0xFF) % 256, (addr &&& 0xFF) % 256]

/-- `W15Q64_WriteEn`. -/
def W15Q64_WriteEn (spi : W15Q64spi_t) : W15Q64spi_t :=
  let txData := W15Q64_WRITE_ENABLE
  let spi := sc_ON spi
  let spi := transmit spi [txData] 1
  cs_OFF spi

/-- `W15Q64_WriteEnStatReg`. -/
def W15Q64_WriteEnStatReg (spi : W15Q64spi_t) : W15Q64spi_t :=
  let txData := W15Q64_VOLATILE_SR_WRITE_EN
  let spi := sc_ON spi
  let spi := transmit spi [txData] 1
  cs_OFF spi

/-- `W15Q64_WriteDis`. -/
def W15Q64_WriteDis (spi : W15Q64spi_t) : W15Q64spi_t :=
  let txData := W15Q64_WRITE_DIS
  let spi := sc_ON spi
  let spi := transmit spi [txData] 1
  cs_OFF spi

/-- `W15Q64_ReadStatReg`: the transport afterwards and the byte returned. -/
def W15Q64_ReadStatReg (spi : W15Q64spi_t) (instruct : Nat) : W15Q64spi_t × Nat :=
  let rxData := 0
  let spi := sc_ON spi
  let spi := transmit spi [instruct] 1
  let (spi, rxBuf) := receive spi [rxData] 1
  let spi := cs_OFF spi
  (spi, rxBuf.headD 0)

/-- The table `byteMask_if_true` of `W15Q64_BitsInByte`. -/
def byteMask_if_true : List Nat := [0x01, 0x02, 0x04, 0x08, 0x10, 0x20, 0x40, 0x80]

/-- The table `byteMask_if_false` of `W15Q64_BitsInByte`. -/
def byteMask_if_false : List Nat := [0xFE, 0xFD, 0xFB, 0xF7, 0xEF, 0xDF, 0xBF, 0x7F]

/-- The loop `for (i = 0; i <= W15Q64_SRP0; i++)` of `W15Q64_BitsInByte`, entered with
counter `i` and accumulator `statReg`. -/
def W15Q64_BitsInByte_loop (pStatReg : List Bool) : Nat → Nat → Nat → Except Fault Nat
  | 0, _, _ => Except.error Fault.outOfFuel
  | fuel + 1, i, statReg =>
    if i ≤ W15Q64_SRP0 then
      match rd pStatReg i with
      | Except.error e => Except.error e
      | Except.ok true =>
        match rd byteMask_if_true i with
        | Except.error e => Except.error e
        | Except.ok m =>
          W15Q64_BitsInByte_loop pStatReg fuel ((i + 1) % 256) ((statReg ||| m) % 256)
      | Except.ok false =>
        match rd byteMask_if_false i with
        | Except.error e => Except.error e
        | Except.ok m =>
          W15Q64_BitsInByte_loop pStatReg fuel ((i + 1) % 256) ((statReg &&& m) % 256)
    else Except.ok statReg

/-- `W15Q64_BitsInByte`. -/
def W15Q64_BitsInByte (pStatReg : List Bool) : Except Fault Nat :=
  W15Q64_BitsInByte_loop pStatReg loopFuel 0 0

/-! ## The status structure -/

/-- The struct `W15Q64statRegs_t`: the flag arrays of status registers 1 and 2. -/
structure W15Q64statRegs_t where
  reg1 : List Bool
  reg2 : List Bool
  deriving DecidableEq, Repr

/-- The table `byteMask` of `W15Q64_ReadStatRegs`. -/
def byteMask : List Nat := [0x01, 0x02, 0x04, 0x08, 0x10, 0x20, 0x40, 0x80]

/-- The loop `for (i = 0; i <= 7; i++)` of `W15Q64_ReadStatRegs`, entered with counter `i`. -/
def W15Q64_ReadStatRegs_loop (reg1Temp reg2Temp : Nat) :
    Nat → Nat → W15Q64statRegs_t → Except Fault W15Q64statRegs_t
  | 0, _, _ => Except.error Fault.outOfFuel
  | fuel + 1, i, status =>
    if i ≤ 7 then
      match rd byteMask i with
      | Except.error e => Except.error e
      | Except.ok m =>
        match wr status.reg1 i ((reg1Temp &&& m) == m) with
        | Except.error e => Except.error e
        | Except.ok r1 =>
          match wr status.reg2 i ((reg2Temp &&& m) == m) with
          | Except.error e => Except.error e
          | Except.ok r2 =>
            W15Q64_ReadStatRegs_loop reg1Temp reg2Temp fuel ((i + 1) % 256)
              { reg1 := r1, reg2 := r2 }
    else Except.ok status

/-! ## Public functions -/

/-- `W15Q64_ReadStatRegs`: the transport afterwards and the status structure as filled in. -/
def W15Q64_ReadStatRegs (spi : W15Q64spi_t) (status : W15Q64statRegs_t) :
    Except Fault (W15Q64spi_t × W15Q64statRegs_t) :=
  let (spi, reg1Temp) := W15Q64_ReadStatReg spi W15Q64_READ_STATUS_REGISTER_1
  let (spi, reg2Temp) := W15Q64_ReadStatReg spi W15Q64_READ_STATUS_REGISTER_2
  match W15Q64_ReadStatRegs_loop reg1Temp reg2Temp loopFuel 0 status with
  | Except.error e => Except.error e
  | Except.ok status => Except.ok (spi, status)

/-- `W15Q64_ReadData`: the transport afterwards and the byte returned. -/
def W15Q64_ReadData (spi : W15Q64spi_t) (addr : Nat) : W15Q64spi_t × Nat :=
  let instruct := W15Q64_READ_DATA
  let dataByte := 0
  let addrArr := W15Q64_AddrTo3Arr addr
  let spi := sc_ON spi
  let spi := transmit spi [instruct] 1
  let spi := transmit spi addrArr 3
  let (spi, rxBuf) := receive spi [dataByte] 1
  let spi := cs_OFF spi
  (spi, rxBuf.headD 0)

/-- `W15Q64_FastReadData`: the transport and the caller's buffer afterwards. -/
def W15Q64_FastReadData (spi : W15Q64spi_t) (addr : Nat) (pRxData : List Nat) (cnt : Nat) :
    W15Q64spi_t × List Nat :=
  let instruct := W15Q64_FAST_READ
  let dummyByte := 0
  let addrArr := W15Q64_AddrTo3Arr addr
  let spi := sc_ON spi
  let spi := transmit spi [instruct] 1
  let spi := transmit spi addrArr 3
  let spi := transmit spi [dummyByte] 1
  let (spi, pRxData) := receive spi pRxData cnt
  let spi := cs_OFF spi
  (spi, pRxData)

/-- `W15Q64_WriteStatRegs`. -/
def W15Q64_WriteStatRegs (spi : W15Q64spi_t) (status : W15Q64statRegs_t) :
    Except Fault W15Q64spi_t :=
  let txData := W15Q64_WRITE_STATUS_REGISTER
  match W15Q64_BitsInByte status.reg1 with
  | Except.error e => Except.error e
  | Except.ok s1 =>
    match W15Q64_BitsInByte status.reg2 with
    | Except.error e => Except.error e
    | Except.ok s2 =>
      let statRegsArr := [s1, s2]
      let spi := sc_ON spi
      let spi := transmit spi [txData] 1
      let spi := transmit spi statRegsArr 2
      Except.ok (cs_OFF spi)

/-- `W15Q64_PageProg`. -/
def W15Q64_PageProg (spi : W15Q64spi_t) (addr : Nat) (pTxData : List Nat) (cnt : Nat) :
    W15Q64spi_t :=
  let txInstruct := W15Q64_PAGE_PROGRAM
  let cnt := if cnt > 256 then 256 else cnt
  let addrArr := W15Q64_AddrTo3Arr addr
  let spi := W15Q64_WriteEn spi
  let spi := sc_ON spi
  let spi := transmit spi [txInstruct] 1
  let spi := transmit spi addrArr 3
  let spi := transmit spi pTxData cnt
  cs_OFF spi

/-- `W15Q64_ReadSecReg`: the transport and the caller's buffer afterwards. -/
def W15Q64_ReadSecReg (spi : W15Q64spi_t) (addr : Nat) (pRxData : List Nat) (cnt : Nat) :
    W15Q64spi_t × List Nat :=
  let dummyByte := 0
  let instruct := W15Q64_READ_SECURITY_REGISTER
  let addrArr := W15Q64_AddrTo3Arr addr
  let spi := sc_ON spi
  let spi := transmit spi [instruct] 1
  let spi := transmit spi addrArr 3
  let spi := transmit spi [dummyByte] 1
  let spi := transmit spi pRxData cnt
  let spi := cs_OFF spi
  (spi, pRxData)

/-- `W15Q64_Erase`. -/
def W15Q64_Erase (spi : W15Q64spi_t) (addr : Nat) (txInstruct : Nat) : W15Q64spi_t :=
  let spi := W15Q64_WriteEn spi
  let txData := txInstruct
  let addrAdrr := W15Q64_AddrTo3Arr addr
  let spi := sc_ON spi
  let spi := transmit spi [txData] 1
  let spi := transmit spi addrAdrr 3
  cs_OFF spi

/-- `W15Q64_SectorErase4KB`. -/
def W15Q64_SectorErase4KB (spi : W15Q64spi_t) (addr : Nat) : W15Q64spi_t :=
  W15Q64_Erase spi addr (W15Q64_SECTOR_ERASE_4KB % 256)

/-- `W15Q64_BlockErase32KB`. -/
def W15Q64_BlockErase32KB (spi : W15Q64spi_t) (addr : Nat) : W15Q64spi_t :=
  W15Q64_Erase spi addr (W15Q64_BLOCK_ERASE_32KB % 256)

/-- `W15Q64_BlockErase64KB`. -/
def W15Q64_BlockErase64KB (spi : W15Q64spi_t) (addr : Nat) : W15Q64spi_t :=
  W15Q64_Erase spi addr (W15Q64_BLOCK_ERASE_64KB % 256)

/-- `W15Q64_ChipErase`. -/
def W15Q64_ChipErase (spi : W15Q64spi_t) : W15Q64spi_t :=
  let txInstruct := W15Q64_CHIP_ERASE
  let spi := sc_ON spi
  let spi := transmit spi [txInstruct] 1
  cs_OFF spi

/-- `W15Q64_EraseProgram_Suspend`. -/
def W15Q64_EraseProgram_Suspend (spi : W15Q64spi_t) : W15Q64spi_t :=
  let txInstruct := W15Q64_ERASE_PROGRAM_SUSPEND
  let spi := sc_ON spi
  let spi := transmit spi [txInstruct] 1
  cs_OFF spi

/-- `W15Q64_EraseProgram_Resume`. -/
def W15Q64_EraseProgram_Resume (spi : W15Q64spi_t) : W15Q64spi_t :=
  let txInstruct := W15Q64_ERASE_PROGRAM_RESUME
  let spi := sc_ON spi
  let spi := transmit spi [txInstruct] 1
  cs_OFF spi

/-- `W15Q64_PowerDown`. -/
def W15Q64_PowerDown (spi : W15Q64spi_t) : W15Q64spi_t :=
  let txInstruct := W15Q64_POWER_DOWN
  let spi := sc_ON spi
  let spi := transmit spi [txInstruct] 1
  cs_OFF spi

/-- `W15Q64_ReleasePowerDown`. -/
def W15Q64_ReleasePowerDown (spi : W15Q64spi_t) : W15Q64spi_t :=
  let txInstruct := W15Q64_RELEASE_POWER_DOWN
  let spi := sc_ON spi
  let spi := transmit spi [txInstruct] 1
  cs_OFF spi

/-- `W15Q64_DeviceID`: the transport afterwards and the byte returned. -/
def W15Q64_DeviceID (spi : W15Q64spi_t) : W15Q64spi_t × Nat :=
  let txInstruct := W15Q64_RELEASE_POWER_DOWN
  let dummyBytes := [0x00, 0x00, 0x00]
  let deviceID := 0
  let spi := sc_ON spi
  let spi := transmit spi [txInstruct] 1
  let spi := transmit spi dummyBytes 3
  let (spi, rxBuf) := receive spi [deviceID] 1
  let spi := cs_OFF spi
  (spi, rxBuf.headD 0)

/-! ## Reading a trace -/

/-- The events of a trace from its last `select` on, the last bracket (the whole trace
when it holds no `select`). -/
def lastBracket : List BusEvent → List BusEvent
  | [] => []
  | e :: es =>
    if es.contains BusEvent.select then lastBracket es else e :: es

/-- The events added to the trace between two states of the transport. -/
def emitted (before after : W15Q64spi_t) : List BusEvent :=
  after.trace.drop before.trace.length

/-- The number of `spi->sc_ON()` calls made between two states of the transport. -/
def selectCalls (before after : W15Q64spi_t) : Nat :=
  (emitted before after).count BusEvent.select

/-- The number of `spi->cs_OFF()` calls made between two states of the transport. -/
def deselectCalls (before after : W15Q64spi_t) : Nat :=
  (emitted before after).count BusEvent.deselect

/-- Whether an event moves bytes over the bus: a transmit or a receive. -/
def isTransfer : BusEvent → Bool
  | BusEvent.transmit _ => true
  | BusEvent.receive _ => true
  | _ => false

/-- Whether a run of events is one bracket: select, a transmit of exactly one byte (the
opcode), any number of further transfers, deselect. -/
def isBracket : List BusEvent → Bool
  | BusEvent.select :: BusEvent.transmit [_] :: rest =>
    rest.getLast? == some BusEvent.deselect && rest.dropLast.all isTransfer
  | _ => false

/-- The chip-select line after one more event: selected after `select`, released after
`deselect`, unchanged by a transfer. -/
def lineStep (selected : Bool) : BusEvent → Bool
  | BusEvent.select => true
  | BusEvent.deselect => false
  | _ => selected

/-- Whether the chip is selected after a run of events that starts with the chip released. -/
def selectedAfter (ev : List BusEvent) : Bool :=
  ev.foldl lineStep false

/-- Whether a run of events keeps the discipline of the chip-select line when it starts
with the line in the given state: no `select` while selected, no `deselect` while released,
no transfer while released. -/
def lineOK : Bool → List BusEvent → Bool
  | _, [] => true
  | selected, BusEvent.select :: es => !selected && lineOK true es
  | selected, BusEvent.deselect :: es => selected && lineOK false es
  | selected, e :: es => selected && lineOK (lineStep selected e) es

/-- A run of events, starting with the chip released, in which every `select` finds the
chip released, every `deselect` finds it selected and every transfer finds it selected. -/
def Disciplined (ev : List BusEvent) : Prop :=
  ∀ pre e post, ev = pre ++ e :: post →
    (e = BusEvent.select → selectedAfter pre = false) ∧
    (e = BusEvent.deselect → selectedAfter pre = true) ∧
    (isTransfer e = true → selectedAfter pre = true)

/-- A run of events that is a concatenation of one or more brackets and keeps the
discipline of the chip-select line. -/
def WellBracketed (ev : List BusEvent) : Prop :=
  (∃ brackets : List (List BusEvent),
    brackets ≠ [] ∧ (∀ b ∈ brackets, isBracket b = true) ∧ brackets.flatten = ev) ∧
  Disciplined ev

/-! ## Auxiliary lemmas -/

theorem and_255 (n : Nat) : n &&& 0xFF = n % 256 :=
  Nat.and_pow_two_sub_one_eq_mod n 8

theorem AddrTo3Arr_eq (addr : Nat) :
    W15Q64_AddrTo3Arr addr = [addr / 65536 % 256, addr / 256 % 256, addr % 256] := by
  simp [W15Q64_AddrTo3Arr, and_255, Nat.shiftRight_eq_div_pow]

theorem AddrTo3Arr_take (addr : Nat) :
    (W15Q64_AddrTo3Arr addr).take 3 = W15Q64_AddrTo3Arr addr := by
  simp [W15Q64_AddrTo3Arr]

theorem WriteEn_eq (spi : W15Q64spi_t) :
    W15Q64_WriteEn spi =
      { trace := spi.trace ++ [BusEvent.select, BusEvent.transmit [0x06], BusEvent.deselect],
        rx := spi.rx } := by
  simp [W15Q64_WriteEn, W15Q64_WRITE_ENABLE, sc_ON, cs_OFF, transmit]

theorem PageProg_eq (spi : W15Q64spi_t) (addr : Nat) (pTxData : List Nat) (cnt : Nat) :
    W15Q64_PageProg spi addr pTxData cnt =
      { trace := spi.trace ++
          [BusEvent.select, BusEvent.transmit [0x06], BusEvent.deselect,
           BusEvent.select, BusEvent.transmit [0x02],
           BusEvent.transmit (W15Q64_AddrTo3Arr addr),
           BusEvent.transmit (pTxData.take (min cnt 256)), BusEvent.deselect],
        rx := spi.rx } := by
  have hmin : (if cnt > 256 then 256 else cnt) = min cnt 256 := by
    split <;> omega
  simp only [W15Q64_PageProg, WriteEn_eq, W15Q64_PAGE_PROGRAM, sc_ON, cs_OFF, transmit,
    AddrTo3Arr_take, hmin]
  simp

theorem Erase_eq (spi : W15Q64spi_t) (addr txInstruct : Nat) :
    W15Q64_Erase spi addr txInstruct =
      { trace := spi.trace ++
          [BusEvent.select, BusEvent.transmit [0x06], BusEvent.deselect,
           BusEvent.select, BusEvent.transmit [txInstruct],
           BusEvent.transmit (W15Q64_AddrTo3Arr addr), BusEvent.deselect],
        rx := spi.rx } := by
  simp only [W15Q64_Erase, WriteEn_eq, sc_ON, cs_OFF, transmit, AddrTo3Arr_take]
  simp

theorem lastBracket_append (pre body : List BusEvent)
    (h : body.contains BusEvent.select = false) :
    lastBracket (pre ++ BusEvent.select :: body) = BusEvent.select :: body := by
  have h' : BusEvent.select ∉ body := by simpa using h
  induction pre with
  | nil => simp [lastBracket, h']
  | cons e es ih => simp [lastBracket, ih]

theorem BitsInByte_eight (f0 f1 f2 f3 f4 f5 f6 f7 : Bool) :
    W15Q64_BitsInByte [f0, f1, f2, f3, f4, f5, f6, f7] =
      Except.ok (f0.toNat + 2 * f1.toNat + 4 * f2.toNat + 8 * f3.toNat + 16 * f4.toNat +
        32 * f5.toNat + 64 * f6.toNat + 128 * f7.toNat) := by
  cases f0 <;> cases f1 <;> cases f2 <;> cases f3 <;> cases f4 <;> cases f5 <;>
    cases f6 <;> cases f7 <;> rfl

theorem cons_of_length_succ {α : Type} {n : Nat} (l : List α) (h : l.length = n + 1) :
    ∃ a t, l = a :: t ∧ t.length = n := by
  cases l with
  | nil => simp at h
  | cons a t => exact ⟨a, t, rfl, by simpa using h⟩

theorem eight_of_length {α : Type} (l : List α) (h : l.length = 8) :
    ∃ a0 a1 a2 a3 a4 a5 a6 a7, l = [a0, a1, a2, a3, a4, a5, a6, a7] := by
  obtain ⟨a0, t0, rfl, h0⟩ := cons_of_length_succ l h
  obtain ⟨a1, t1, rfl, h1⟩ := cons_of_length_succ t0 h0
  obtain ⟨a2, t2, rfl, h2⟩ := cons_of_length_succ t1 h1
  obtain ⟨a3, t3, rfl, h3⟩ := cons_of_length_succ t2 h2
  obtain ⟨a4, t4, rfl, h4⟩ := cons_of_length_succ t3 h3
  obtain ⟨a5, t5, rfl, h5⟩ := cons_of_length_succ t4 h4
  obtain ⟨a6, t6, rfl, h6⟩ := cons_of_length_succ t5 h5
  obtain ⟨a7, t7, rfl, h7⟩ := cons_of_length_succ t6 h6
  exact ⟨a0, a1, a2, a3, a4, a5, a6, a7, by rw [List.length_eq_zero.mp h7]⟩

theorem BitsInByte_ok (pStatReg : List Bool) (h : pStatReg.length = 8) :
    ∃ s, W15Q64_BitsInByte pStatReg = Except.ok s ∧ s < 256 := by
  obtain ⟨f0, f1, f2, f3, f4, f5, f6, f7, rfl⟩ := eight_of_length pStatReg h
  refine ⟨_, BitsInByte_eight f0 f1 f2 f3 f4 f5 f6 f7, ?_⟩
  cases f0 <;> cases f1 <;> cases f2 <;> cases f3 <;> cases f4 <;> cases f5 <;>
    cases f6 <;> cases f7 <;> decide

theorem WriteStatRegs_eq (spi : W15Q64spi_t) (status : W15Q64statRegs_t) (s1 s2 : Nat)
    (h1 : W15Q64_BitsInByte status.reg1 = Except.ok s1)
    (h2 : W15Q64_BitsInByte status.reg2 = Except.ok s2) :
    W15Q64_WriteStatRegs spi status = Except.ok
      { trace := spi.trace ++
          [BusEvent.select, BusEvent.transmit [0x01], BusEvent.transmit [s1, s2],
           BusEvent.deselect],
        rx := spi.rx } := by
  simp [W15Q64_WriteStatRegs, h1, h2, W15Q64_WRITE_STATUS_REGISTER, sc_ON, cs_OFF, transmit]

theorem mask_test (b i : Nat) : ((b &&& 2 ^ i) == 2 ^ i) = decide (b / 2 ^ i % 2 = 1) := by
  rw [← Nat.testBit_to_div_mod]
  cases hb : b.testBit i with
  | true =>
    have : b &&& 2 ^ i = 2 ^ i := by
      apply Nat.eq_of_testBit_eq
      intro j
      rw [Nat.testBit_and, Nat.testBit_two_pow]
      by_cases hij : i = j
      · subst hij; simp [hb]
      · simp [hij]
    simp [this]
  | false =>
    have : b &&& 2 ^ i ≠ 2 ^ i := by
      intro h
      have h2 := congrArg (fun n => Nat.testBit n i) h
      simp [Nat.testBit_two_pow_self, hb] at h2
    simpa using this

theorem ReadStatReg_eq (spi : W15Q64spi_t) (instruct b : Nat) (rest : List Nat)
    (hrx : spi.rx = b :: rest) :
    W15Q64_ReadStatReg spi instruct =
      ({ trace := spi.trace ++
           [BusEvent.select, BusEvent.transmit [instruct], BusEvent.receive 1,
            BusEvent.deselect],
         rx := rest }, b) := by
  simp [W15Q64_ReadStatReg, sc_ON, cs_OFF, transmit, receive, hrx]

theorem ReadStatRegs_loop_eight (r1 r2 : Nat) (a0 a1 a2 a3 a4 a5 a6 a7 : Bool)
    (c0 c1 c2 c3 c4 c5 c6 c7 : Bool) :
    W15Q64_ReadStatRegs_loop r1 r2 loopFuel 0
        ⟨[a0, a1, a2, a3, a4, a5, a6, a7], [c0, c1, c2, c3, c4, c5, c6, c7]⟩ =
      Except.ok
        ⟨[(r1 &&& 2 ^ 0) == 2 ^ 0, (r1 &&& 2 ^ 1) == 2 ^ 1, (r1 &&& 2 ^ 2) == 2 ^ 2,
          (r1 &&& 2 ^ 3) == 2 ^ 3, (r1 &&& 2 ^ 4) == 2 ^ 4, (r1 &&& 2 ^ 5) == 2 ^ 5,
          (r1 &&& 2 ^ 6) == 2 ^ 6, (r1 &&& 2 ^ 7) == 2 ^ 7],
         [(r2 &&& 2 ^ 0) == 2 ^ 0, (r2 &&& 2 ^ 1) == 2 ^ 1, (r2 &&& 2 ^ 2) == 2 ^ 2,
          (r2 &&& 2 ^ 3) == 2 ^ 3, (r2 &&& 2 ^ 4) == 2 ^ 4, (r2 &&& 2 ^ 5) == 2 ^ 5,
          (r2 &&& 2 ^ 6) == 2 ^ 6, (r2 &&& 2 ^ 7) == 2 ^ 7]⟩ := by
  simp [loopFuel, W15Q64_ReadStatRegs_loop, rd, wr, byteMask]

theorem ReadStatRegs_eq (spi : W15Q64spi_t) (b1 b2 : Nat) (rest : List Nat)
    (hrx : spi.rx = b1 :: b2 :: rest) (a0 a1 a2 a3 a4 a5 a6 a7 : Bool)
    (c0 c1 c2 c3 c4 c5 c6 c7 : Bool) :
    W15Q64_ReadStatRegs spi
        ⟨[a0, a1, a2, a3, a4, a5, a6, a7], [c0, c1, c2, c3, c4, c5, c6, c7]⟩ =
      Except.ok
        (⟨spi.trace ++
            [BusEvent.select, BusEvent.transmit [0x05], BusEvent.receive 1,
             BusEvent.deselect, BusEvent.select, BusEvent.transmit [0x35],
             BusEvent.receive 1, BusEvent.deselect], rest⟩,
         ⟨[(b1 &&& 2 ^ 0) == 2 ^ 0, (b1 &&& 2 ^ 1) == 2 ^ 1, (b1 &&& 2 ^ 2) == 2 ^ 2,
           (b1 &&& 2 ^ 3) == 2 ^ 3, (b1 &&& 2 ^ 4) == 2 ^ 4, (b1 &&& 2 ^ 5) == 2 ^ 5,
           (b1 &&& 2 ^ 6) == 2 ^ 6, (b1 &&& 2 ^ 7) == 2 ^ 7],
          [(b2 &&& 2 ^ 0) == 2 ^ 0, (b2 &&& 2 ^ 1) == 2 ^ 1, (b2 &&& 2 ^ 2) == 2 ^ 2,
           (b2 &&& 2 ^ 3) == 2 ^ 3, (b2 &&& 2 ^ 4) == 2 ^ 4, (b2 &&& 2 ^ 5) == 2 ^ 5,
           (b2 &&& 2 ^ 6) == 2 ^ 6, (b2 &&& 2 ^ 7) == 2 ^ 7]⟩) := by
  simp only [W15Q64_ReadStatRegs, W15Q64_READ_STATUS_REGISTER_1,
    W15Q64_READ_STATUS_REGISTER_2, ReadStatReg_eq spi _ b1 (b2 :: rest) hrx]
  rw [ReadStatReg_eq _ _ b2 rest rfl]
  simp only [ReadStatRegs_loop_eight]
  simp

set_option maxRecDepth 100000 in
theorem encode_decode_byte (b : Nat) (hb : b < 256) :
    ((b &&& 2 ^ 0) == 2 ^ 0).toNat + 2 * ((b &&& 2 ^ 1) == 2 ^ 1).toNat +
      4 * ((b &&& 2 ^ 2) == 2 ^ 2).toNat + 8 * ((b &&& 2 ^ 3) == 2 ^ 3).toNat +
      16 * ((b &&& 2 ^ 4) == 2 ^ 4).toNat + 32 * ((b &&& 2 ^ 5) == 2 ^ 5).toNat +
      64 * ((b &&& 2 ^ 6) == 2 ^ 6).toNat + 128 * ((b &&& 2 ^ 7) == 2 ^ 7).toNat = b := by
  revert b
  decide

theorem decode_encode_flags (f0 f1 f2 f3 f4 f5 f6 f7 : Bool) (s : Nat)
    (hs : s = f0.toNat + 2 * f1.toNat + 4 * f2.toNat + 8 * f3.toNat + 16 * f4.toNat +
      32 * f5.toNat + 64 * f6.toNat + 128 * f7.toNat) :
    [(s &&& 2 ^ 0) == 2 ^ 0, (s &&& 2 ^ 1) == 2 ^ 1, (s &&& 2 ^ 2) == 2 ^ 2,
     (s &&& 2 ^ 3) == 2 ^ 3, (s &&& 2 ^ 4) == 2 ^ 4, (s &&& 2 ^ 5) == 2 ^ 5,
     (s &&& 2 ^ 6) == 2 ^ 6, (s &&& 2 ^ 7) == 2 ^ 7] = [f0, f1, f2, f3, f4, f5, f6, f7] := by
  subst hs
  cases f0 <;> cases f1 <;> cases f2 <;> cases f3 <;> cases f4 <;> cases f5 <;>
    cases f6 <;> cases f7 <;> rfl

theorem weighted_sum_lt (f0 f1 f2 f3 f4 f5 f6 f7 : Bool) :
    f0.toNat + 2 * f1.toNat + 4 * f2.toNat + 8 * f3.toNat + 16 * f4.toNat +
      32 * f5.toNat + 64 * f6.toNat + 128 * f7.toNat < 256 := by
  cases f0 <;> cases f1 <;> cases f2 <;> cases f3 <;> cases f4 <;> cases f5 <;>
    cases f6 <;> cases f7 <;> decide

theorem weighted_sum_range (f0 f1 f2 f3 f4 f5 f6 f7 : Bool) :
    f0.toNat + 2 * f1.toNat + 4 * f2.toNat + 8 * f3.toNat + 16 * f4.toNat +
      32 * f5.toNat + 64 * f6.toNat + 128 * f7.toNat =
    ((List.range 8).map
      (fun i => if [f0, f1, f2, f3, f4, f5, f6, f7][i]? = some true then 2 ^ i else 0)).sum := by
  cases f0 <;> cases f1 <;> cases f2 <;> cases f3 <;> cases f4 <;> cases f5 <;>
    cases f6 <;> cases f7 <;> decide

theorem weighted_sum_bit (f0 f1 f2 f3 f4 f5 f6 f7 : Bool) (i : Nat) (hi : i < 8) :
    (f0.toNat + 2 * f1.toNat + 4 * f2.toNat + 8 * f3.toNat + 16 * f4.toNat +
      32 * f5.toNat + 64 * f6.toNat + 128 * f7.toNat) / 2 ^ i % 2 = 1 ↔
    [f0, f1, f2, f3, f4, f5, f6, f7][i]? = some true := by
  have h := decode_encode_flags f0 f1 f2 f3 f4 f5 f6 f7 _ rfl
  simp only [mask_test] at h
  simp only [List.cons.injEq, and_true] at h
  obtain ⟨h0, h1, h2, h3, h4, h5, h6, h7⟩ := h
  interval_cases i
  · exact decide_eq_true_iff.symm.trans (by rw [h0]; simp)
  · exact decide_eq_true_iff.symm.trans (by rw [h1]; simp)
  · exact decide_eq_true_iff.symm.trans (by rw [h2]; simp)
  · exact decide_eq_true_iff.symm.trans (by rw [h3]; simp)
  · exact decide_eq_true_iff.symm.trans (by rw [h4]; simp)
  · exact decide_eq_true_iff.symm.trans (by rw [h5]; simp)
  · exact decide_eq_true_iff.symm.trans (by rw [h6]; simp)
  · exact decide_eq_true_iff.symm.trans (by rw [h7]; simp)

theorem BitsInByte_bits (f : List Bool) (hf : f.length = 8) :
    ∃ s, W15Q64_BitsInByte f = Except.ok s ∧ s < 256 ∧
      (∀ i, i < 8 → (s / 2 ^ i % 2 = 1 ↔ f[i]? = some true)) ∧
      s = ((List.range 8).map (fun i => if f[i]? = some true then 2 ^ i else 0)).sum := by
  obtain ⟨f0, f1, f2, f3, f4, f5, f6, f7, rfl⟩ := eight_of_length f hf
  exact ⟨_, BitsInByte_eight f0 f1 f2 f3 f4 f5 f6 f7,
    weighted_sum_lt f0 f1 f2 f3 f4 f5 f6 f7,
    fun i hi => weighted_sum_bit f0 f1 f2 f3 f4 f5 f6 f7 i hi,
    weighted_sum_range f0 f1 f2 f3 f4 f5 f6 f7⟩

theorem decode_then_encode (b1 b2 : Nat) (hb1 : b1 < 256) (hb2 : b2 < 256)
    (status : W15Q64statRegs_t) (h1 : status.reg1.length = 8) (h2 : status.reg2.length = 8) :
    ∃ status', W15Q64_ReadStatRegs_loop b1 b2 loopFuel 0 status = Except.ok status' ∧
      status'.reg1.length = 8 ∧ status'.reg2.length = 8 ∧
      status'.reg1 = byteMask.map (fun m => (b1 &&& m) == m) ∧
      status'.reg2 = byteMask.map (fun m => (b2 &&& m) == m) ∧
      W15Q64_BitsInByte status'.reg1 = Except.ok b1 ∧
      W15Q64_BitsInByte status'.reg2 = Except.ok b2 := by
  obtain ⟨reg1, reg2⟩ := status
  obtain ⟨a0, a1, a2, a3, a4, a5, a6, a7, rfl⟩ := eight_of_length reg1 h1
  obtain ⟨c0, c1, c2, c3, c4, c5, c6, c7, rfl⟩ := eight_of_length reg2 h2
  refine ⟨_, ReadStatRegs_loop_eight b1 b2 a0 a1 a2 a3 a4 a5 a6 a7 c0 c1 c2 c3 c4 c5 c6 c7,
    rfl, rfl, by simp [byteMask], by simp [byteMask], ?_, ?_⟩
  · rw [BitsInByte_eight, encode_decode_byte b1 hb1]
  · rw [BitsInByte_eight, encode_decode_byte b2 hb2]

theorem encode_then_decode (status prev : W15Q64statRegs_t)
    (h1 : status.reg1.length = 8) (h2 : status.reg2.length = 8)
    (p1 : prev.reg1.length = 8) (p2 : prev.reg2.length = 8) :
    ∃ s1 s2, W15Q64_BitsInByte status.reg1 = Except.ok s1 ∧ s1 < 256 ∧
      W15Q64_BitsInByte status.reg2 = Except.ok s2 ∧ s2 < 256 ∧
      W15Q64_ReadStatRegs_loop s1 s2 loopFuel 0 prev = Except.ok status := by
  obtain ⟨reg1, reg2⟩ := status
  obtain ⟨q1, q2⟩ := prev
  obtain ⟨a0, a1, a2, a3, a4, a5, a6, a7, rfl⟩ := eight_of_length reg1 h1
  obtain ⟨c0, c1, c2, c3, c4, c5, c6, c7, rfl⟩ := eight_of_length reg2 h2
  obtain ⟨d0, d1, d2, d3, d4, d5, d6, d7, rfl⟩ := eight_of_length q1 p1
  obtain ⟨e0, e1, e2, e3, e4, e5, e6, e7, rfl⟩ := eight_of_length q2 p2
  refine ⟨_, _, BitsInByte_eight a0 a1 a2 a3 a4 a5 a6 a7,
    weighted_sum_lt a0 a1 a2 a3 a4 a5 a6 a7,
    BitsInByte_eight c0 c1 c2 c3 c4 c5 c6 c7,
    weighted_sum_lt c0 c1 c2 c3 c4 c5 c6 c7, ?_⟩
  rw [ReadStatRegs_loop_eight,
    decode_encode_flags a0 a1 a2 a3 a4 a5 a6 a7 _ rfl,
    decode_encode_flags c0 c1 c2 c3 c4 c5 c6 c7 _ rfl]

theorem emitted_of_trace (before after : W15Q64spi_t) (ev : List BusEvent)
    (h : after.trace = before.trace ++ ev) : emitted before after = ev := by
  simp [emitted, h]

theorem ReadData_eq (spi : W15Q64spi_t) (addr : Nat) :
    W15Q64_ReadData spi addr =
      ({ trace := spi.trace ++
           [BusEvent.select, BusEvent.transmit [0x03],
            BusEvent.transmit (W15Q64_AddrTo3Arr addr), BusEvent.receive 1,
            BusEvent.deselect],
         rx := spi.rx.drop 1 },
       (spi.rx.take 1 ++ [0].drop (spi.rx.take 1).length).headD 0) := by
  simp only [W15Q64_ReadData, W15Q64_READ_DATA, sc_ON, cs_OFF, transmit, receive,
    AddrTo3Arr_take]
  simp

theorem FastReadData_eq (spi : W15Q64spi_t) (addr : Nat) (pRxData : List Nat) (cnt : Nat) :
    W15Q64_FastReadData spi addr pRxData cnt =
      ({ trace := spi.trace ++
           [BusEvent.select, BusEvent.transmit [0x0B],
            BusEvent.transmit (W15Q64_AddrTo3Arr addr), BusEvent.transmit [0x00],
            BusEvent.receive cnt, BusEvent.deselect],
         rx := spi.rx.drop cnt },
       spi.rx.take cnt ++ pRxData.drop (spi.rx.take cnt).length) := by
  simp only [W15Q64_FastReadData, W15Q64_FAST_READ, sc_ON, cs_OFF, transmit, receive,
    AddrTo3Arr_take]
  simp

theorem ReadSecReg_eq (spi : W15Q64spi_t) (addr : Nat) (pRxData : List Nat) (cnt : Nat) :
    W15Q64_ReadSecReg spi addr pRxData cnt =
      ({ trace := spi.trace ++
           [BusEvent.select, BusEvent.transmit [0x48],
            BusEvent.transmit (W15Q64_AddrTo3Arr addr), BusEvent.transmit [0x00],
            BusEvent.transmit (pRxData.take cnt), BusEvent.deselect],
         rx := spi.rx },
       pRxData) := by
  simp only [W15Q64_ReadSecReg, W15Q64_READ_SECURITY_REGISTER, sc_ON, cs_OFF, transmit,
    AddrTo3Arr_take]
  simp

theorem DeviceID_eq (spi : W15Q64spi_t) :
    W15Q64_DeviceID spi =
      ({ trace := spi.trace ++
           [BusEvent.select, BusEvent.transmit [0xAB], BusEvent.transmit [0x00, 0x00, 0x00],
            BusEvent.receive 1, BusEvent.deselect],
         rx := spi.rx.drop 1 },
       (spi.rx.take 1 ++ [0].drop (spi.rx.take 1).length).headD 0) := by
  simp [W15Q64_DeviceID, W15Q64_RELEASE_POWER_DOWN, sc_ON, cs_OFF, transmit, receive]

theorem ChipErase_eq (spi : W15Q64spi_t) :
    W15Q64_ChipErase spi =
      { trace := spi.trace ++
          [BusEvent.select, BusEvent.transmit [0xC7], BusEvent.deselect],
        rx := spi.rx } := by
  simp [W15Q64_ChipErase, W15Q64_CHIP_ERASE, sc_ON, cs_OFF, transmit]

theorem EraseProgram_Suspend_eq (spi : W15Q64spi_t) :
    W15Q64_EraseProgram_Suspend spi =
      { trace := spi.trace ++
          [BusEvent.select, BusEvent.transmit [0x75], BusEvent.deselect],
        rx := spi.rx } := by
  simp [W15Q64_EraseProgram_Suspend, W15Q64_ERASE_PROGRAM_SUSPEND, sc_ON, cs_OFF, transmit]

theorem EraseProgram_Resume_eq (spi : W15Q64spi_t) :
    W15Q64_EraseProgram_Resume spi =
      { trace := spi.trace ++
          [BusEvent.select, BusEvent.transmit [0x7A], BusEvent.deselect],
        rx := spi.rx } := by
  simp [W15Q64_EraseProgram_Resume, W15Q64_ERASE_PROGRAM_RESUME, sc_ON, cs_OFF, transmit]

theorem PowerDown_eq (spi : W15Q64spi_t) :
    W15Q64_PowerDown spi =
      { trace := spi.trace ++
          [BusEvent.select, BusEvent.transmit [0xB9], BusEvent.deselect],
        rx := spi.rx } := by
  simp [W15Q64_PowerDown, W15Q64_POWER_DOWN, sc_ON, cs_OFF, transmit]

theorem ReleasePowerDown_eq (spi : W15Q64spi_t) :
    W15Q64_ReleasePowerDown spi =
      { trace := spi.trace ++
          [BusEvent.select, BusEvent.transmit [0xAB], BusEvent.deselect],
        rx := spi.rx } := by
  simp [W15Q64_ReleasePowerDown, W15Q64_RELEASE_POWER_DOWN, sc_ON, cs_OFF, transmit]

theorem ReadStatReg_gen (spi : W15Q64spi_t) (instruct : Nat) :
    W15Q64_ReadStatReg spi instruct =
      ({ trace := spi.trace ++
           [BusEvent.select, BusEvent.transmit [instruct], BusEvent.receive 1,
            BusEvent.deselect],
         rx := spi.rx.drop 1 },
       (spi.rx.take 1 ++ [0].drop (spi.rx.take 1).length).headD 0) := by
  simp [W15Q64_ReadStatReg, sc_ON, cs_OFF, transmit, receive]

theorem ReadStatRegs_ok (spi : W15Q64spi_t) (status : W15Q64statRegs_t)
    (h1 : status.reg1.length = 8) (h2 : status.reg2.length = 8) :
    ∃ status', W15Q64_ReadStatRegs spi status =
      Except.ok
        (⟨spi.trace ++
            [BusEvent.select, BusEvent.transmit [0x05], BusEvent.receive 1,
             BusEvent.deselect, BusEvent.select, BusEvent.transmit [0x35],
             BusEvent.receive 1, BusEvent.deselect], (spi.rx.drop 1).drop 1⟩,
         status') := by
  obtain ⟨reg1, reg2⟩ := status
  obtain ⟨a0, a1, a2, a3, a4, a5, a6, a7, rfl⟩ := eight_of_length reg1 h1
  obtain ⟨c0, c1, c2, c3, c4, c5, c6, c7, rfl⟩ := eight_of_length reg2 h2
  simp only [W15Q64_ReadStatRegs, ReadStatReg_gen, ReadStatRegs_loop_eight,
    W15Q64_READ_STATUS_REGISTER_1, W15Q64_READ_STATUS_REGISTER_2, List.append_assoc,
    List.cons_append, List.nil_append]
  exact ⟨_, rfl⟩

theorem ReadStatRegs_of_loop (spi : W15Q64spi_t) (b1 b2 : Nat) (rest : List Nat)
    (hrx : spi.rx = b1 :: b2 :: rest) (prev status : W15Q64statRegs_t)
    (h : W15Q64_ReadStatRegs_loop b1 b2 loopFuel 0 prev = Except.ok status) :
    W15Q64_ReadStatRegs spi prev =
      Except.ok
        (⟨spi.trace ++
            [BusEvent.select, BusEvent.transmit [0x05], BusEvent.receive 1,
             BusEvent.deselect, BusEvent.select, BusEvent.transmit [0x35],
             BusEvent.receive 1, BusEvent.deselect], rest⟩,
         status) := by
  simp only [W15Q64_ReadStatRegs, W15Q64_READ_STATUS_REGISTER_1,
    W15Q64_READ_STATUS_REGISTER_2, ReadStatReg_eq spi _ b1 (b2 :: rest) hrx]
  rw [ReadStatReg_eq _ _ b2 rest rfl]
  simp only [h]
  simp

theorem calls_of_trace (before after : W15Q64spi_t) (ev : List BusEvent)
    (h : after.trace = before.trace ++ ev) :
    selectCalls before after = ev.count BusEvent.select ∧
    deselectCalls before after = ev.count BusEvent.deselect := by
  simp [selectCalls, deselectCalls, emitted_of_trace before after ev h]

theorem balanced_of_trace (before after : W15Q64spi_t) (ev : List BusEvent)
    (h : after.trace = before.trace ++ ev)
    (hb : ev.count BusEvent.select = ev.count BusEvent.deselect) :
    selectCalls before after = deselectCalls before after := by
  rw [(calls_of_trace before after ev h).1, (calls_of_trace before after ev h).2, hb]

theorem selectCalls_of_trace (before after : W15Q64spi_t) (ev : List BusEvent) (n : Nat)
    (h : after.trace = before.trace ++ ev) (hn : ev.count BusEvent.select = n) :
    selectCalls before after = n := by
  rw [(calls_of_trace before after ev h).1, hn]

theorem lineOK_append (s : Bool) (a b : List BusEvent) :
    lineOK s (a ++ b) = (lineOK s a && lineOK (a.foldl lineStep s) b) := by
  induction a generalizing s with
  | nil => simp [lineOK]
  | cons e es ih =>
    cases e <;> simp [lineOK, lineStep, ih, Bool.and_assoc]

theorem lineOK_disciplined (s : Bool) (ev : List BusEvent) (h : lineOK s ev = true) :
    ∀ pre e post, ev = pre ++ e :: post →
      (e = BusEvent.select → pre.foldl lineStep s = false) ∧
      (e = BusEvent.deselect → pre.foldl lineStep s = true) ∧
      (isTransfer e = true → pre.foldl lineStep s = true) := by
  intro pre e post hev
  subst hev
  rw [lineOK_append] at h
  have h2 : lineOK (pre.foldl lineStep s) (e :: post) = true := by
    simp only [Bool.and_eq_true] at h
    exact h.2
  cases e <;> cases hs : pre.foldl lineStep s <;>
    simp [lineOK, isTransfer, hs] at h2 ⊢

theorem transfers_then_deselect (ts : List BusEvent) (h : ts.all isTransfer = true) :
    lineOK true (ts ++ [BusEvent.deselect]) = true ∧
    (ts ++ [BusEvent.deselect]).foldl lineStep true = false := by
  induction ts with
  | nil => simp [lineOK, lineStep]
  | cons e es ih =>
    simp only [List.all_cons, Bool.and_eq_true] at h
    obtain ⟨he, hes⟩ := h
    cases e <;> simp [isTransfer] at he <;> simpa [lineOK, lineStep] using ih hes

theorem bracket_line (b : List BusEvent) (h : isBracket b = true) :
    lineOK false b = true ∧ b.foldl lineStep false = false := by
  match b, h with
  | BusEvent.select :: BusEvent.transmit [x] :: rest, h =>
    simp only [isBracket, Bool.and_eq_true, beq_iff_eq] at h
    obtain ⟨hlast, hall⟩ := h
    have hrest : rest = rest.dropLast ++ [BusEvent.deselect] := by
      have hne : rest ≠ [] := by
        intro hnil
        rw [hnil] at hlast
        simp at hlast
      have := List.dropLast_append_getLast? BusEvent.deselect
        (by simpa using hlast)
      exact this.symm
    obtain ⟨h1, h2⟩ := transfers_then_deselect rest.dropLast hall
    rw [hrest]
    simp [lineOK, lineStep, h1, h2]

theorem brackets_line (bs : List (List BusEvent)) (h : ∀ b ∈ bs, isBracket b = true) :
    lineOK false bs.flatten = true ∧ bs.flatten.foldl lineStep false = false := by
  induction bs with
  | nil => simp [lineOK]
  | cons b rest ih =>
    obtain ⟨hb1, hb2⟩ := bracket_line b (h b (List.mem_cons_self b rest))
    obtain ⟨hr1, hr2⟩ := ih (fun c hc => h c (List.mem_cons_of_mem b hc))
    simp [lineOK_append, hb1, hb2, hr1, hr2]

theorem wellBracketed_of_brackets (bs : List (List BusEvent)) (hne : bs ≠ [])
    (h : ∀ b ∈ bs, isBracket b = true) : WellBracketed bs.flatten :=
  ⟨⟨bs, hne, h, rfl⟩, lineOK_disciplined false bs.flatten (brackets_line bs h).1⟩

theorem isBracket_mk (op : Nat) (ts : List BusEvent) (h : ts.all isTransfer = true) :
    isBracket (BusEvent.select :: BusEvent.transmit [op] :: (ts ++ [BusEvent.deselect])) =
      true := by
  simp only [isBracket, Bool.and_eq_true, beq_iff_eq]
  refine ⟨by simp, ?_⟩
  rw [List.dropLast_concat]
  exact h

theorem wb_single (op : Nat) (ts : List BusEvent) (h : ts.all isTransfer = true) :
    WellBracketed
      (BusEvent.select :: BusEvent.transmit [op] :: (ts ++ [BusEvent.deselect])) := by
  have hb := isBracket_mk op ts h
  have := wellBracketed_of_brackets
    [BusEvent.select :: BusEvent.transmit [op] :: (ts ++ [BusEvent.deselect])]
    (by simp) (by simpa using hb)
  simpa using this

theorem wb_double (op1 : Nat) (ts1 : List BusEvent) (op2 : Nat) (ts2 : List BusEvent)
    (h1 : ts1.all isTransfer = true) (h2 : ts2.all isTransfer = true) :
    WellBracketed
      ((BusEvent.select :: BusEvent.transmit [op1] :: (ts1 ++ [BusEvent.deselect])) ++
       (BusEvent.select :: BusEvent.transmit [op2] :: (ts2 ++ [BusEvent.deselect]))) := by
  have hb1 := isBracket_mk op1 ts1 h1
  have hb2 := isBracket_mk op2 ts2 h2
  have := wellBracketed_of_brackets
    [BusEvent.select :: BusEvent.transmit [op1] :: (ts1 ++ [BusEvent.deselect]),
     BusEvent.select :: BusEvent.transmit [op2] :: (ts2 ++ [BusEvent.deselect])]
    (by simp) (by
      intro b hb
      simp only [List.mem_cons, List.mem_singleton, List.not_mem_nil, or_false] at hb
      rcases hb with rfl | rfl
      · exact hb1
      · exact hb2)
  simpa using this

theorem BitsInByte_loop_succ (p : List Bool) (fuel i statReg : Nat) :
    W15Q64_BitsInByte_loop p (fuel + 1) i statReg =
      if i ≤ W15Q64_SRP0 then
        match rd p i with
        | Except.error e => Except.error e
        | Except.ok true =>
          match rd byteMask_if_true i with
          | Except.error e => Except.error e
          | Except.ok m =>
            W15Q64_BitsInByte_loop p fuel ((i + 1) % 256) ((statReg ||| m) % 256)
        | Except.ok false =>
          match rd byteMask_if_false i with
          | Except.error e => Except.error e
          | Except.ok m =>
            W15Q64_BitsInByte_loop p fuel ((i + 1) % 256) ((statReg &&& m) % 256)
      else Except.ok statReg := rfl

theorem BitsInByte_loop_mono (p : List Bool) (fuel : Nat) : ∀ i s,
    W15Q64_BitsInByte_loop p fuel i s ≠ Except.error Fault.outOfFuel →
    W15Q64_BitsInByte_loop p (fuel + 1) i s = W15Q64_BitsInByte_loop p fuel i s := by
  induction fuel with
  | zero => intro i s h; exact absurd rfl h
  | succ n ih =>
    intro i s h
    rw [BitsInByte_loop_succ p (n + 1) i s]
    rw [BitsInByte_loop_succ p n i s] at h ⊢
    by_cases hi : i ≤ W15Q64_SRP0
    · simp only [hi, if_true] at h ⊢
      cases hr : rd p i with
      | error e => rfl
      | ok b =>
        cases b with
        | true =>
          simp only [hr] at h ⊢
          cases hm : rd byteMask_if_true i with
          | error e => rfl
          | ok m =>
            simp only [hm] at h ⊢
            exact ih _ _ h
        | false =>
          simp only [hr] at h ⊢
          cases hm : rd byteMask_if_false i with
          | error e => rfl
          | ok m =>
            simp only [hm] at h ⊢
            exact ih _ _ h
    · simp only [hi, if_false]

theorem BitsInByte_loop_enough (p : List Bool) (r : Except Fault Nat)
    (hr : r ≠ Except.error Fault.outOfFuel) (base : Nat)
    (hbase : W15Q64_BitsInByte_loop p base 0 0 = r) :
    ∀ fuel, base ≤ fuel → W15Q64_BitsInByte_loop p fuel 0 0 = r := by
  intro fuel hfuel
  induction fuel, hfuel using Nat.le_induction with
  | base => exact hbase
  | succ n _ ih =>
    rw [BitsInByte_loop_mono p n 0 0 (by rw [ih]; exact hr), ih]

theorem BitsInByte_loop_short (p : List Bool)
    (h8 : W15Q64_BitsInByte_loop p 8 0 0 = Except.error Fault.outOfFuel) :
    ∀ fuel, fuel ≤ 8 → W15Q64_BitsInByte_loop p fuel 0 0 = Except.error Fault.outOfFuel := by
  intro fuel hfuel
  by_contra hne
  have := BitsInByte_loop_enough p _ hne fuel rfl 8 hfuel
  rw [h8] at this
  exact hne this.symm

theorem BitsInByte_loop_nine (f0 f1 f2 f3 f4 f5 f6 f7 : Bool) :
    W15Q64_BitsInByte_loop [f0, f1, f2, f3, f4, f5, f6, f7] 9 0 0 =
      W15Q64_BitsInByte [f0, f1, f2, f3, f4, f5, f6, f7] ∧
    W15Q64_BitsInByte_loop [f0, f1, f2, f3, f4, f5, f6, f7] 8 0 0 =
      Except.error Fault.outOfFuel := by
  cases f0 <;> cases f1 <;> cases f2 <;> cases f3 <;> cases f4 <;> cases f5 <;>
    cases f6 <;> cases f7 <;> exact ⟨rfl, rfl⟩

theorem BitsInByte_loop_congr (p q : List Bool)
    (h : ∀ j, j ≤ W15Q64_SRP0 → rd p j = rd q j) (fuel : Nat) : ∀ i s,
    W15Q64_BitsInByte_loop p fuel i s = W15Q64_BitsInByte_loop q fuel i s := by
  induction fuel with
  | zero => intro i s; rfl
  | succ n ih =>
    intro i s
    rw [BitsInByte_loop_succ p n i s, BitsInByte_loop_succ q n i s]
    by_cases hi : i ≤ W15Q64_SRP0
    · simp only [hi, if_true, h i hi, ih]
    · simp only [hi, if_false]

theorem BitsInByte_ignores_tail (f extra : List Bool) (hf : f.length = 8) :
    W15Q64_BitsInByte (f ++ extra) = W15Q64_BitsInByte f := by
  unfold W15Q64_BitsInByte
  apply BitsInByte_loop_congr
  intro j hj
  have hj' : j < f.length := by
    simp only [W15Q64_SRP0] at hj
    omega
  simp [rd, List.getElem?_append_left hj']

theorem ReadStatRegs_loop_fuel (r1 r2 k : Nat) (a0 a1 a2 a3 a4 a5 a6 a7 : Bool)
    (c0 c1 c2 c3 c4 c5 c6 c7 : Bool) :
    W15Q64_ReadStatRegs_loop r1 r2 (k + 9) 0
        ⟨[a0, a1, a2, a3, a4, a5, a6, a7], [c0, c1, c2, c3, c4, c5, c6, c7]⟩ =
      W15Q64_ReadStatRegs_loop r1 r2 loopFuel 0
        ⟨[a0, a1, a2, a3, a4, a5, a6, a7], [c0, c1, c2, c3, c4, c5, c6, c7]⟩ := by
  rw [ReadStatRegs_loop_eight]
  simp [W15Q64_ReadStatRegs_loop, rd, wr, byteMask]

theorem ReadStatRegs_loop_short (r1 r2 fuel : Nat) (hfuel : fuel ≤ 8)
    (a0 a1 a2 a3 a4 a5 a6 a7 : Bool) (c0 c1 c2 c3 c4 c5 c6 c7 : Bool) :
    W15Q64_ReadStatRegs_loop r1 r2 fuel 0
        ⟨[a0, a1, a2, a3, a4, a5, a6, a7], [c0, c1, c2, c3, c4, c5, c6, c7]⟩ =
      Except.error Fault.outOfFuel := by
  interval_cases fuel <;> simp [W15Q64_ReadStatRegs_loop, rd, wr, byteMask]

theorem ReadStatRegs_loop_tail (r1 r2 : Nat) (a0 a1 a2 a3 a4 a5 a6 a7 : Bool)
    (c0 c1 c2 c3 c4 c5 c6 c7 : Bool) (x1 x2 : List Bool) :
    W15Q64_ReadStatRegs_loop r1 r2 loopFuel 0
        ⟨[a0, a1, a2, a3, a4, a5, a6, a7] ++ x1, [c0, c1, c2, c3, c4, c5, c6, c7] ++ x2⟩ =
      Except.ok
        ⟨[(r1 &&& 2 ^ 0) == 2 ^ 0, (r1 &&& 2 ^ 1) == 2 ^ 1, (r1 &&& 2 ^ 2) == 2 ^ 2,
          (r1 &&& 2 ^ 3) == 2 ^ 3, (r1 &&& 2 ^ 4) == 2 ^ 4, (r1 &&& 2 ^ 5) == 2 ^ 5,
          (r1 &&& 2 ^ 6) == 2 ^ 6, (r1 &&& 2 ^ 7) == 2 ^ 7] ++ x1,
         [(r2 &&& 2 ^ 0) == 2 ^ 0, (r2 &&& 2 ^ 1) == 2 ^ 1, (r2 &&& 2 ^ 2) == 2 ^ 2,
          (r2 &&& 2 ^ 3) == 2 ^ 3, (r2 &&& 2 ^ 4) == 2 ^ 4, (r2 &&& 2 ^ 5) == 2 ^ 5,
          (r2 &&& 2 ^ 6) == 2 ^ 6, (r2 &&& 2 ^ 7) == 2 ^ 7] ++ x2⟩ := by
  simp [loopFuel, W15Q64_ReadStatRegs_loop, rd, wr, byteMask]

/-! ## Theorems -/

/-- C1: for every 32-bit address, every data buffer and every `cnt ≤ 256`, the events
`W15Q64_PageProg` adds to the trace are, in order: select, transmit `[0x06]`, deselect,
select, transmit `[0x02]`, transmit of the three bytes of `W15Q64_AddrTo3Arr addr`,
transmit of the first `cnt` bytes of the buffer, deselect. -/
theorem PageProg_trace (spi : W15Q64spi_t) (addr : Nat) (pTxData : List Nat) (cnt : Nat)
    (haddr : addr < 2 ^ 32) (hcnt : cnt ≤ 256) :
    (W15Q64_PageProg spi addr pTxData cnt).trace = spi.trace ++
      [BusEvent.select, BusEvent.transmit [0x06], BusEvent.deselect,
       BusEvent.select, BusEvent.transmit [0x02],
       BusEvent.transmit (W15Q64_AddrTo3Arr addr),
       BusEvent.transmit (pTxData.take cnt), BusEvent.deselect]
    ∧ (W15Q64_AddrTo3Arr addr).length = 3
    ∧ (cnt ≤ pTxData.length → (pTxData.take cnt).length = cnt) := by
  have _ := haddr
  refine ⟨?_, by simp [W15Q64_AddrTo3Arr], fun h => by simp [h]⟩
  rw [PageProg_eq, Nat.min_eq_left hcnt]

/-- C1, at address `0x001000` with ten bytes `0xAA`: the address bytes are
`[0x00, 0x10, 0x00]` and the payload is the ten bytes. -/
theorem PageProg_trace_witness :
    (0x001000 < 2 ^ 32 ∧ 10 ≤ 256) ∧
    ((W15Q64_PageProg ⟨[], []⟩ 0x001000 (List.replicate 10 0xAA) 10).trace = [] ++
      [BusEvent.select, BusEvent.transmit [0x06], BusEvent.deselect,
       BusEvent.select, BusEvent.transmit [0x02],
       BusEvent.transmit (W15Q64_AddrTo3Arr 0x001000),
       BusEvent.transmit ((List.replicate 10 0xAA).take 10), BusEvent.deselect]
    ∧ (W15Q64_AddrTo3Arr 0x001000).length = 3
    ∧ (10 ≤ (List.replicate 10 0xAA).length →
        ((List.replicate 10 0xAA).take 10).length = 10)) ∧
    W15Q64_AddrTo3Arr 0x001000 = [0x00, 0x10, 0x00] ∧
    (List.replicate 10 0xAA).take 10 =
      [0xAA, 0xAA, 0xAA, 0xAA, 0xAA, 0xAA, 0xAA, 0xAA, 0xAA, 0xAA] :=
  ⟨⟨by decide, by decide⟩,
   PageProg_trace ⟨[], []⟩ 0x001000 (List.replicate 10 0xAA) 10 (by decide) (by decide),
   by decide, by decide⟩

/-- C2: for every `cnt ≤ 65535` and every buffer of at least `cnt` bytes, `W15Q64_PageProg`
returns and its data transmit carries the first `min cnt 256` bytes of the buffer, which
are exactly `min cnt 256` bytes: the first 256 bytes when `cnt > 256`, and the first `cnt`
bytes, unclamped, when `cnt ≤ 256` (so also at `cnt = 256`). -/
theorem PageProg_clamps_count (spi : W15Q64spi_t) (addr : Nat) (pTxData : List Nat)
    (cnt : Nat) (hcnt : cnt ≤ 65535) (hbuf : cnt ≤ pTxData.length) :
    (W15Q64_PageProg spi addr pTxData cnt).trace = spi.trace ++
      [BusEvent.select, BusEvent.transmit [0x06], BusEvent.deselect,
       BusEvent.select, BusEvent.transmit [0x02],
       BusEvent.transmit (W15Q64_AddrTo3Arr addr),
       BusEvent.transmit (pTxData.take (min cnt 256)), BusEvent.deselect]
    ∧ (pTxData.take (min cnt 256)).length = min cnt 256
    ∧ (256 < cnt → pTxData.take (min cnt 256) = pTxData.take 256 ∧
        (pTxData.take 256).length = 256)
    ∧ (cnt ≤ 256 → pTxData.take (min cnt 256) = pTxData.take cnt ∧
        (pTxData.take cnt).length = cnt) := by
  have _ := hcnt
  refine ⟨by rw [PageProg_eq], ?_, fun h => ?_, fun h => ?_⟩
  · rw [List.length_take]; omega
  · rw [Nat.min_eq_right (Nat.le_of_lt h), List.length_take]
    exact ⟨rfl, by omega⟩
  · rw [Nat.min_eq_left h, List.length_take]
    exact ⟨rfl, by omega⟩

/-- C2, at `cnt = 300` with a buffer of 300 bytes: exactly 256 data bytes go out. -/
theorem PageProg_clamps_count_witness :
    (300 ≤ 65535 ∧ 300 ≤ (List.replicate 300 0x5A).length) ∧
    ((List.replicate 300 0x5A).take (min 300 256)).length = 256 ∧
    (W15Q64_PageProg ⟨[], []⟩ 0 (List.replicate 300 0x5A) 300).trace = [] ++
      [BusEvent.select, BusEvent.transmit [0x06], BusEvent.deselect,
       BusEvent.select, BusEvent.transmit [0x02],
       BusEvent.transmit (W15Q64_AddrTo3Arr 0),
       BusEvent.transmit ((List.replicate 300 0x5A).take (min 300 256)),
       BusEvent.deselect] :=
  ⟨⟨by decide, (List.length_replicate 300 0x5A).ge⟩,
   (PageProg_clamps_count ⟨[], []⟩ 0 (List.replicate 300 0x5A) 300
      (by decide) (List.length_replicate 300 0x5A).ge).2.1,
   (PageProg_clamps_count ⟨[], []⟩ 0 (List.replicate 300 0x5A) 300
      (by decide) (List.length_replicate 300 0x5A).ge).1⟩

/-- C4: what the code does. `W15Q64_ChipErase` adds one bracket only, select, transmit
`[0xC7]`, deselect: the opcode goes out without address bytes, and no write-enable bracket
comes before it, so the trace is not the six events of the claim. -/
theorem ChipErase_has_no_write_enable (spi : W15Q64spi_t) :
    (W15Q64_ChipErase spi).trace = spi.trace ++
      [BusEvent.select, BusEvent.transmit [0xC7], BusEvent.deselect]
    ∧ (W15Q64_ChipErase spi).trace ≠ spi.trace ++
      [BusEvent.select, BusEvent.transmit [0x06], BusEvent.deselect,
       BusEvent.select, BusEvent.transmit [0xC7], BusEvent.deselect]
    ∧ (W15Q64_ChipErase ⟨[], []⟩).trace =
      [BusEvent.select, BusEvent.transmit [0xC7], BusEvent.deselect] := by
  have h : (W15Q64_ChipErase spi).trace = spi.trace ++
      [BusEvent.select, BusEvent.transmit [0xC7], BusEvent.deselect] := by
    simp [W15Q64_ChipErase, W15Q64_CHIP_ERASE, sc_ON, cs_OFF, transmit]
  refine ⟨h, ?_, by decide⟩
  rw [h]
  intro hc
  have hl := congrArg List.length hc
  simp at hl

/-- C5: what the code does. For the status structure with all sixteen flags clear,
`W15Q64_WriteStatRegs` adds one bracket only, select, transmit `[0x01]`, transmit `[0, 0]`,
deselect: no write-enable bracket comes before the write bracket. -/
theorem WriteStatRegs_has_no_write_enable :
    W15Q64_WriteStatRegs ⟨[], []⟩
        ⟨[false, false, false, false, false, false, false, false],
         [false, false, false, false, false, false, false, false]⟩ =
      Except.ok ⟨[BusEvent.select, BusEvent.transmit [0x01], BusEvent.transmit [0, 0],
        BusEvent.deselect], []⟩ := by
  decide

/-- C6: for every pair of 8-flag registers, `W15Q64_BitsInByte` returns a byte for each,
`W15Q64_WriteStatRegs` returns, and the last bracket of its trace is select, transmit
`[0x01]`, one transmit of the two bytes `[W15Q64_BitsInByte reg1, W15Q64_BitsInByte reg2]`
in this order, deselect. -/
theorem WriteStatRegs_last_bracket (spi : W15Q64spi_t) (status : W15Q64statRegs_t)
    (h1 : status.reg1.length = 8) (h2 : status.reg2.length = 8) :
    ∃ s1 s2 spi',
      W15Q64_BitsInByte status.reg1 = Except.ok s1 ∧ s1 < 256 ∧
      W15Q64_BitsInByte status.reg2 = Except.ok s2 ∧ s2 < 256 ∧
      W15Q64_WriteStatRegs spi status = Except.ok spi' ∧
      lastBracket spi'.trace =
        [BusEvent.select, BusEvent.transmit [0x01], BusEvent.transmit [s1, s2],
         BusEvent.deselect] := by
  obtain ⟨s1, hs1, hlt1⟩ := BitsInByte_ok status.reg1 h1
  obtain ⟨s2, hs2, hlt2⟩ := BitsInByte_ok status.reg2 h2
  refine ⟨s1, s2, _, hs1, hlt1, hs2, hlt2, WriteStatRegs_eq spi status s1 s2 hs1 hs2, ?_⟩
  exact lastBracket_append spi.trace _ (by simp)

/-- C6, at `reg1` with BUSY and WEL set and `reg2` with SUS set: the bytes are `0x03`
and `0x80`. -/
theorem WriteStatRegs_last_bracket_witness :
    (([true, true, false, false, false, false, false, false] : List Bool).length = 8 ∧
     ([false, false, false, false, false, false, false, true] : List Bool).length = 8) ∧
    (∃ s1 s2 spi',
      W15Q64_BitsInByte [true, true, false, false, false, false, false, false] =
        Except.ok s1 ∧ s1 < 256 ∧
      W15Q64_BitsInByte [false, false, false, false, false, false, false, true] =
        Except.ok s2 ∧ s2 < 256 ∧
      W15Q64_WriteStatRegs ⟨[BusEvent.select, BusEvent.deselect], []⟩
        ⟨[true, true, false, false, false, false, false, false],
         [false, false, false, false, false, false, false, true]⟩ = Except.ok spi' ∧
      lastBracket spi'.trace =
        [BusEvent.select, BusEvent.transmit [0x01], BusEvent.transmit [s1, s2],
         BusEvent.deselect]) ∧
    W15Q64_BitsInByte [true, true, false, false, false, false, false, false] =
      Except.ok 0x03 ∧
    W15Q64_BitsInByte [false, false, false, false, false, false, false, true] =
      Except.ok 0x80 :=
  ⟨⟨rfl, rfl⟩,
   WriteStatRegs_last_bracket ⟨[BusEvent.select, BusEvent.deselect], []⟩
     ⟨[true, true, false, false, false, false, false, false],
      [false, false, false, false, false, false, false, true]⟩ rfl rfl,
   by decide, by decide⟩

/-- C7: when the transport answers the two receives with `b1` and `b2`,
`W15Q64_ReadStatRegs` returns, the events it adds to the trace are select, transmit `[0x05]`,
receive 1, deselect, select, transmit `[0x35]`, receive 1, deselect, and whatever the status
structure held before, afterwards both flag arrays have 8 entries, `reg1[i]` is true iff
bit `i` of `b1` is set and `reg2[i]` is true iff bit `i` of `b2` is set, for `i` in 0..7
with bit 0 the least significant. -/
theorem ReadStatRegs_trace_and_flags (spi : W15Q64spi_t) (status : W15Q64statRegs_t)
    (b1 b2 : Nat) (rest : List Nat) (hrx : spi.rx = b1 :: b2 :: rest)
    (hb1 : b1 < 256) (hb2 : b2 < 256)
    (h1 : status.reg1.length = 8) (h2 : status.reg2.length = 8) :
    ∃ spi' status',
      W15Q64_ReadStatRegs spi status = Except.ok (spi', status') ∧
      spi'.trace = spi.trace ++
        [BusEvent.select, BusEvent.transmit [0x05], BusEvent.receive 1, BusEvent.deselect,
         BusEvent.select, BusEvent.transmit [0x35], BusEvent.receive 1, BusEvent.deselect] ∧
      status'.reg1.length = 8 ∧ status'.reg2.length = 8 ∧
      ∀ i, i < 8 →
        status'.reg1[i]? = some (decide (b1 / 2 ^ i % 2 = 1)) ∧
        status'.reg2[i]? = some (decide (b2 / 2 ^ i % 2 = 1)) := by
  have _ := hb1
  have _ := hb2
  obtain ⟨reg1, reg2⟩ := status
  obtain ⟨a0, a1, a2, a3, a4, a5, a6, a7, rfl⟩ := eight_of_length reg1 h1
  obtain ⟨c0, c1, c2, c3, c4, c5, c6, c7, rfl⟩ := eight_of_length reg2 h2
  refine ⟨_, _, ReadStatRegs_eq spi b1 b2 rest hrx a0 a1 a2 a3 a4 a5 a6 a7
    c0 c1 c2 c3 c4 c5 c6 c7, rfl, rfl, rfl, ?_⟩
  · intro i hi
    simp only [mask_test]
    interval_cases i <;> simp

/-- C7, at `b1 = 0x03`, `b2 = 0x80` and a status structure that held other values:
afterwards `reg1` has BUSY and WEL set and `reg2` has SUS set, nothing else. -/
theorem ReadStatRegs_trace_and_flags_witness :
    (((⟨[], [0x03, 0x80]⟩ : W15Q64spi_t).rx = 0x03 :: 0x80 :: []) ∧
      0x03 < 256 ∧ 0x80 < 256 ∧
      (List.replicate 8 true).length = 8 ∧ (List.replicate 8 false).length = 8) ∧
    (∃ spi' status',
      W15Q64_ReadStatRegs ⟨[], [0x03, 0x80]⟩ ⟨List.replicate 8 true, List.replicate 8 false⟩ =
        Except.ok (spi', status') ∧
      spi'.trace = [] ++
        [BusEvent.select, BusEvent.transmit [0x05], BusEvent.receive 1, BusEvent.deselect,
         BusEvent.select, BusEvent.transmit [0x35], BusEvent.receive 1, BusEvent.deselect] ∧
      status'.reg1.length = 8 ∧ status'.reg2.length = 8 ∧
      ∀ i, i < 8 →
        status'.reg1[i]? = some (decide (0x03 / 2 ^ i % 2 = 1)) ∧
        status'.reg2[i]? = some (decide (0x80 / 2 ^ i % 2 = 1))) ∧
    W15Q64_ReadStatRegs ⟨[], [0x03, 0x80]⟩ ⟨List.replicate 8 true, List.replicate 8 false⟩ =
      Except.ok
        (⟨[BusEvent.select, BusEvent.transmit [0x05], BusEvent.receive 1, BusEvent.deselect,
           BusEvent.select, BusEvent.transmit [0x35], BusEvent.receive 1, BusEvent.deselect],
          []⟩,
         ⟨[true, true, false, false, false, false, false, false],
          [false, false, false, false, false, false, false, true]⟩) :=
  ⟨⟨rfl, by decide, by decide, rfl, rfl⟩,
   ReadStatRegs_trace_and_flags ⟨[], [0x03, 0x80]⟩
     ⟨List.replicate 8 true, List.replicate 8 false⟩ 0x03 0x80 [] rfl
     (by decide) (by decide) rfl rfl,
   by decide⟩

/-- C8: for every 32-bit address, `W15Q64_AddrTo3Arr` stores exactly three bytes:
bits 23..16, then bits 15..8, then bits 7..0 of the address, the big-endian encoding of
its low 24 bits. -/
theorem AddrTo3Arr_big_endian (addr : Nat) (haddr : addr < 2 ^ 32) :
    W15Q64_AddrTo3Arr addr =
      [addr / 2 ^ 16 % 256, addr / 2 ^ 8 % 256, addr % 256]
    ∧ (W15Q64_AddrTo3Arr addr).length = 3
    ∧ (∀ b ∈ W15Q64_AddrTo3Arr addr, b < 256)
    ∧ (addr / 2 ^ 16 % 256) * 2 ^ 16 + (addr / 2 ^ 8 % 256) * 2 ^ 8 + addr % 256 =
        addr % 2 ^ 24 := by
  have _ := haddr
  refine ⟨by rw [AddrTo3Arr_eq]; norm_num, by simp [W15Q64_AddrTo3Arr], ?_, ?_⟩
  · intro b hb
    rw [AddrTo3Arr_eq] at hb
    simp only [List.mem_cons, List.mem_singleton, List.not_mem_nil, or_false] at hb
    omega
  · norm_num
    omega

/-- C8, at the address `0xAB123456`, whose top byte is not sent. -/
theorem AddrTo3Arr_big_endian_witness :
    0xAB123456 < 2 ^ 32 ∧
    W15Q64_AddrTo3Arr 0xAB123456 =
      [0xAB123456 / 2 ^ 16 % 256, 0xAB123456 / 2 ^ 8 % 256, 0xAB123456 % 256] ∧
    W15Q64_AddrTo3Arr 0xAB123456 = [0x12, 0x34, 0x56] :=
  ⟨by decide, (AddrTo3Arr_big_endian 0xAB123456 (by decide)).1, by decide⟩

/-- C9: for every address `a ≤ 0xFFFFFF`, `W15Q64_AddrTo3Arr a` stores three bytes
`b0, b1, b2`, each below 256, that give `a` back as `b0 * 65536 + b1 * 256 + b2`, and they
are the only three bytes that do; hence two such addresses with the same three bytes are
equal. -/
theorem AddrTo3Arr_round_trip (a a' : Nat) (ha : a ≤ 0xFFFFFF) (ha' : a' ≤ 0xFFFFFF) :
    (∃ b0 b1 b2, W15Q64_AddrTo3Arr a = [b0, b1, b2] ∧
      b0 < 256 ∧ b1 < 256 ∧ b2 < 256 ∧ b0 * 65536 + b1 * 256 + b2 = a)
    ∧ (∀ c0 c1 c2, c0 < 256 → c1 < 256 → c2 < 256 → c0 * 65536 + c1 * 256 + c2 = a →
        W15Q64_AddrTo3Arr a = [c0, c1, c2])
    ∧ (W15Q64_AddrTo3Arr a = W15Q64_AddrTo3Arr a' → a = a') := by
  refine ⟨⟨a / 65536 % 256, a / 256 % 256, a % 256, AddrTo3Arr_eq a,
      Nat.mod_lt _ (by decide), Nat.mod_lt _ (by decide), Nat.mod_lt _ (by decide),
      by omega⟩,
    fun c0 c1 c2 h0 h1 h2 hc => ?_, fun h => ?_⟩
  · rw [AddrTo3Arr_eq]
    have e0 : a / 65536 % 256 = c0 := by omega
    have e1 : a / 256 % 256 = c1 := by omega
    have e2 : a % 256 = c2 := by omega
    rw [e0, e1, e2]
  · rw [AddrTo3Arr_eq, AddrTo3Arr_eq] at h
    simp only [List.cons.injEq, and_true] at h
    omega

/-- C9, at the addresses `0x123456` and `0xFFFFFF`. -/
theorem AddrTo3Arr_round_trip_witness :
    (0x123456 ≤ 0xFFFFFF ∧ 0xFFFFFF ≤ 0xFFFFFF) ∧
    (∃ b0 b1 b2, W15Q64_AddrTo3Arr 0x123456 = [b0, b1, b2] ∧
      b0 < 256 ∧ b1 < 256 ∧ b2 < 256 ∧ b0 * 65536 + b1 * 256 + b2 = 0x123456) ∧
    W15Q64_AddrTo3Arr 0x123456 = [0x12, 0x34, 0x56] ∧
    W15Q64_AddrTo3Arr 0xFFFFFF = [0xFF, 0xFF, 0xFF] ∧
    0x12 * 65536 + 0x34 * 256 + 0x56 = 0x123456 :=
  ⟨⟨by decide, by decide⟩,
   (AddrTo3Arr_round_trip 0x123456 0xFFFFFF (by decide) (by decide)).1,
   by decide, by decide, by decide⟩

/-- C10: for every 32-bit address, `W15Q64_AddrTo3Arr` stores the same bytes for `addr`
and for `addr mod 2^24`, and `W15Q64_ReadData`, `W15Q64_FastReadData`, `W15Q64_PageProg`,
`W15Q64_ReadSecReg` and `W15Q64_Erase` return the same transport, trace included, and the
same data for both; none of them has a failure result. -/
theorem address_truncated_silently (spi : W15Q64spi_t) (addr : Nat) (buf : List Nat)
    (cnt op : Nat) (haddr : addr < 2 ^ 32) :
    W15Q64_AddrTo3Arr addr = W15Q64_AddrTo3Arr (addr % 2 ^ 24)
    ∧ W15Q64_ReadData spi addr = W15Q64_ReadData spi (addr % 2 ^ 24)
    ∧ W15Q64_FastReadData spi addr buf cnt = W15Q64_FastReadData spi (addr % 2 ^ 24) buf cnt
    ∧ W15Q64_PageProg spi addr buf cnt = W15Q64_PageProg spi (addr % 2 ^ 24) buf cnt
    ∧ W15Q64_ReadSecReg spi addr buf cnt = W15Q64_ReadSecReg spi (addr % 2 ^ 24) buf cnt
    ∧ W15Q64_Erase spi addr op = W15Q64_Erase spi (addr % 2 ^ 24) op
    ∧ (W15Q64_ReadData spi addr).1.trace = (W15Q64_ReadData spi (addr % 2 ^ 24)).1.trace
    ∧ (W15Q64_FastReadData spi addr buf cnt).1.trace =
        (W15Q64_FastReadData spi (addr % 2 ^ 24) buf cnt).1.trace
    ∧ (W15Q64_PageProg spi addr buf cnt).trace =
        (W15Q64_PageProg spi (addr % 2 ^ 24) buf cnt).trace
    ∧ (W15Q64_ReadSecReg spi addr buf cnt).1.trace =
        (W15Q64_ReadSecReg spi (addr % 2 ^ 24) buf cnt).1.trace
    ∧ (W15Q64_Erase spi addr op).trace = (W15Q64_Erase spi (addr % 2 ^ 24) op).trace := by
  have _ := haddr
  have h : W15Q64_AddrTo3Arr addr = W15Q64_AddrTo3Arr (addr % 2 ^ 24) := by
    rw [AddrTo3Arr_eq, AddrTo3Arr_eq]
    norm_num
    omega
  have hRead : W15Q64_ReadData spi addr = W15Q64_ReadData spi (addr % 2 ^ 24) := by
    unfold W15Q64_ReadData; rw [h]
  have hFast : W15Q64_FastReadData spi addr buf cnt =
      W15Q64_FastReadData spi (addr % 2 ^ 24) buf cnt := by
    unfold W15Q64_FastReadData; rw [h]
  have hProg : W15Q64_PageProg spi addr buf cnt =
      W15Q64_PageProg spi (addr % 2 ^ 24) buf cnt := by
    unfold W15Q64_PageProg; rw [h]
  have hSec : W15Q64_ReadSecReg spi addr buf cnt =
      W15Q64_ReadSecReg spi (addr % 2 ^ 24) buf cnt := by
    unfold W15Q64_ReadSecReg; rw [h]
  have hErase : W15Q64_Erase spi addr op = W15Q64_Erase spi (addr % 2 ^ 24) op := by
    unfold W15Q64_Erase; rw [h]
  exact ⟨h, hRead, hFast, hProg, hSec, hErase, by rw [hRead], by rw [hFast], by rw [hProg],
    by rw [hSec], by rw [hErase]⟩

/-- C10, at the address `0x7F001000`, which is sent as `0x001000`. -/
theorem address_truncated_silently_witness :
    0x7F001000 < 2 ^ 32 ∧
    W15Q64_AddrTo3Arr 0x7F001000 = W15Q64_AddrTo3Arr (0x7F001000 % 2 ^ 24) ∧
    0x7F001000 % 2 ^ 24 = 0x001000 ∧
    (W15Q64_ReadData ⟨[], [0x42]⟩ 0x7F001000).1.trace =
      [BusEvent.select, BusEvent.transmit [0x03], BusEvent.transmit [0x00, 0x10, 0x00],
       BusEvent.receive 1, BusEvent.deselect] :=
  ⟨by decide,
   (address_truncated_silently ⟨[], [0x42]⟩ 0x7F001000 [] 0 0x20 (by decide)).1,
   by decide, by decide⟩

/-- C11: for all bytes `b1`, `b2`, the loop of `W15Q64_ReadStatRegs` ends and leaves in each
flag array the flags `(b & mask[i]) == mask[i]` for the eight masks, and `W15Q64_BitsInByte`
of the flags decoded from a byte returns that byte. -/
theorem status_byte_round_trip (b1 b2 : Nat) (hb1 : b1 < 256) (hb2 : b2 < 256)
    (status : W15Q64statRegs_t) (h1 : status.reg1.length = 8) (h2 : status.reg2.length = 8) :
    ∃ status', W15Q64_ReadStatRegs_loop b1 b2 loopFuel 0 status = Except.ok status' ∧
      status'.reg1 = byteMask.map (fun m => (b1 &&& m) == m) ∧
      status'.reg2 = byteMask.map (fun m => (b2 &&& m) == m) ∧
      W15Q64_BitsInByte status'.reg1 = Except.ok b1 ∧
      W15Q64_BitsInByte status'.reg2 = Except.ok b2 := by
  obtain ⟨st, hst, _, _, hr1, hr2, he1, he2⟩ := decode_then_encode b1 b2 hb1 hb2 status h1 h2
  exact ⟨st, hst, hr1, hr2, he1, he2⟩

/-- C11, at the bytes `0xA5` and `0xFF`. -/
theorem status_byte_round_trip_witness :
    (0xA5 < 256 ∧ 0xFF < 256 ∧ (List.replicate 8 false).length = 8 ∧
      (List.replicate 8 true).length = 8) ∧
    (∃ status', W15Q64_ReadStatRegs_loop 0xA5 0xFF loopFuel 0
        ⟨List.replicate 8 false, List.replicate 8 true⟩ = Except.ok status' ∧
      status'.reg1 = byteMask.map (fun m => (0xA5 &&& m) == m) ∧
      status'.reg2 = byteMask.map (fun m => (0xFF &&& m) == m) ∧
      W15Q64_BitsInByte status'.reg1 = Except.ok 0xA5 ∧
      W15Q64_BitsInByte status'.reg2 = Except.ok 0xFF) ∧
    W15Q64_ReadStatRegs_loop 0xA5 0xFF loopFuel 0
        ⟨List.replicate 8 false, List.replicate 8 true⟩ =
      Except.ok ⟨[true, false, true, false, false, true, false, true],
        [true, true, true, true, true, true, true, true]⟩ ∧
    W15Q64_BitsInByte [true, false, true, false, false, true, false, true] =
      Except.ok 0xA5 :=
  ⟨⟨by decide, by decide, rfl, rfl⟩,
   status_byte_round_trip 0xA5 0xFF (by decide) (by decide)
     ⟨List.replicate 8 false, List.replicate 8 true⟩ rfl rfl,
   by decide, by decide⟩

/-- C12: for every array `f` of 8 flags, `W15Q64_BitsInByte` returns a byte `s` whose bit
`i` is set iff `f[i]` is true, for `i` in 0..7; `s` is the sum of `2^i` over the `i` with
`f[i]` true, taken in any order of the indices; and setting one flag `j` to `v` makes bit
`j` follow `v` and leaves every other bit of the result as it was. -/
theorem BitsInByte_weighted_sum (f : List Bool) (hf : f.length = 8) :
    ∃ s, W15Q64_BitsInByte f = Except.ok s ∧ s < 256 ∧
      (∀ i, i < 8 → (s / 2 ^ i % 2 = 1 ↔ f[i]? = some true)) ∧
      s = ((List.range 8).map (fun i => if f[i]? = some true then 2 ^ i else 0)).sum ∧
      (∀ order : List Nat, order.Perm (List.range 8) →
        (order.map (fun i => if f[i]? = some true then 2 ^ i else 0)).sum = s) ∧
      (∀ j v, j < 8 → ∃ s', W15Q64_BitsInByte (f.set j v) = Except.ok s' ∧
        (s' / 2 ^ j % 2 = 1 ↔ v = true) ∧
        ∀ i, i < 8 → i ≠ j → s' / 2 ^ i % 2 = s / 2 ^ i % 2) := by
  obtain ⟨s, hs, hlt, hbit, hsum⟩ := BitsInByte_bits f hf
  refine ⟨s, hs, hlt, hbit, hsum, fun order hp => ?_, fun j v hj => ?_⟩
  · rw [hsum]
    exact (hp.map _).sum_eq
  · obtain ⟨s', hs', _, hbit', _⟩ := BitsInByte_bits (f.set j v) (by simpa using hf)
    refine ⟨s', hs', ?_, fun i hi hij => ?_⟩
    · rw [hbit' j hj]
      have hjl : j < f.length := by omega
      simp [List.getElem?_set, hjl]
    · have e1 := hbit' i hi
      have e2 := hbit i hi
      have hset : (f.set j v)[i]? = f[i]? := by
        simp [List.getElem?_set, Ne.symm hij]
      rw [hset] at e1
      have e3 : s' / 2 ^ i % 2 = 1 ↔ s / 2 ^ i % 2 = 1 := e1.trans e2.symm
      rcases Nat.mod_two_eq_zero_or_one (s' / 2 ^ i) with a | a <;>
        rcases Nat.mod_two_eq_zero_or_one (s / 2 ^ i) with b | b
      · rw [a, b]
      · exact absurd (e3.mpr b) (by rw [a]; decide)
      · exact absurd (e3.mp a) (by rw [b]; decide)
      · rw [a, b]

/-- C12, at the flags of `0x83` (flags 0, 1 and 7 set). -/
theorem BitsInByte_weighted_sum_witness :
    ([true, true, false, false, false, false, false, true] : List Bool).length = 8 ∧
    (∃ s, W15Q64_BitsInByte [true, true, false, false, false, false, false, true] =
        Except.ok s ∧ s < 256 ∧
      (∀ i, i < 8 → (s / 2 ^ i % 2 = 1 ↔
        [true, true, false, false, false, false, false, true][i]? = some true))) ∧
    W15Q64_BitsInByte [true, true, false, false, false, false, false, true] =
      Except.ok 0x83 :=
  ⟨rfl,
   (BitsInByte_weighted_sum [true, true, false, false, false, false, false, true] rfl).imp
     (fun _ h => ⟨h.1, h.2.1, h.2.2.1⟩),
   by decide⟩

/-- C15: what the code does. `W15Q64_ReadSecReg` sends opcode `0x48`, the three address
bytes and one zero dummy byte as claimed, but its payload call is a transmit of the first
`cnt` bytes of the caller's buffer, not a receive: the trace holds no receive event, the
bytes the device answers are not taken and the caller's buffer comes back as it went in. -/
theorem ReadSecReg_transmits_payload :
    W15Q64_ReadSecReg ⟨[], [1, 2, 3, 4]⟩ 0x001000 [9, 8, 7, 6] 4 =
      (⟨[BusEvent.select, BusEvent.transmit [0x48], BusEvent.transmit [0x00, 0x10, 0x00],
         BusEvent.transmit [0x00], BusEvent.transmit [9, 8, 7, 6], BusEvent.deselect],
        [1, 2, 3, 4]⟩, [9, 8, 7, 6])
    ∧ (W15Q64_ReadSecReg ⟨[], [1, 2, 3, 4]⟩ 0x001000 [9, 8, 7, 6] 4).1.trace ≠
      [BusEvent.select, BusEvent.transmit [0x48], BusEvent.transmit [0x00, 0x10, 0x00],
       BusEvent.transmit [0x00], BusEvent.receive 4, BusEvent.deselect]
    ∧ ∀ (spi : W15Q64spi_t) (addr : Nat) (pRxData : List Nat) (cnt : Nat),
        (W15Q64_ReadSecReg spi addr pRxData cnt).1.trace = spi.trace ++
          [BusEvent.select, BusEvent.transmit [0x48],
           BusEvent.transmit (W15Q64_AddrTo3Arr addr), BusEvent.transmit [0x00],
           BusEvent.transmit (pRxData.take cnt), BusEvent.deselect]
        ∧ (W15Q64_ReadSecReg spi addr pRxData cnt).2 = pRxData
        ∧ (W15Q64_ReadSecReg spi addr pRxData cnt).1.rx = spi.rx := by
  refine ⟨by decide, by decide, fun spi addr pRxData cnt => ?_⟩
  rw [ReadSecReg_eq]
  exact ⟨rfl, rfl, rfl⟩

/-- C16: when the transport answers the receive with the byte `d`, `W15Q64_DeviceID` adds
to the trace exactly select, transmit `[0xAB]`, transmit `[0x00, 0x00, 0x00]`, receive 1,
deselect, and returns `d`; the opcode is the release-power-down one, `0xAB`, and neither
`0x90` nor `0x9F`. -/
theorem DeviceID_trace (spi : W15Q64spi_t) (d : Nat) (rest : List Nat)
    (hd : d < 256) (hrx : spi.rx = d :: rest) :
    (W15Q64_DeviceID spi).1.trace = spi.trace ++
      [BusEvent.select, BusEvent.transmit [W15Q64_RELEASE_POWER_DOWN],
       BusEvent.transmit [0x00, 0x00, 0x00], BusEvent.receive 1, BusEvent.deselect]
    ∧ W15Q64_RELEASE_POWER_DOWN = 0xAB
    ∧ W15Q64_RELEASE_POWER_DOWN ≠ 0x90 ∧ W15Q64_RELEASE_POWER_DOWN ≠ 0x9F
    ∧ (W15Q64_DeviceID spi).2 = d
    ∧ (W15Q64_DeviceID spi).1.rx = rest := by
  have _ := hd
  rw [DeviceID_eq]
  refine ⟨rfl, rfl, by decide, by decide, ?_, ?_⟩
  · simp [hrx]
  · simp [hrx]

/-- C16, with the device answering `0x16`. -/
theorem DeviceID_trace_witness :
    (0x16 < 256 ∧ (⟨[], [0x16]⟩ : W15Q64spi_t).rx = 0x16 :: []) ∧
    ((W15Q64_DeviceID ⟨[], [0x16]⟩).1.trace = [] ++
      [BusEvent.select, BusEvent.transmit [W15Q64_RELEASE_POWER_DOWN],
       BusEvent.transmit [0x00, 0x00, 0x00], BusEvent.receive 1, BusEvent.deselect]
    ∧ W15Q64_RELEASE_POWER_DOWN = 0xAB
    ∧ W15Q64_RELEASE_POWER_DOWN ≠ 0x90 ∧ W15Q64_RELEASE_POWER_DOWN ≠ 0x9F
    ∧ (W15Q64_DeviceID ⟨[], [0x16]⟩).2 = 0x16
    ∧ (W15Q64_DeviceID ⟨[], [0x16]⟩).1.rx = []) ∧
    W15Q64_DeviceID ⟨[], [0x16]⟩ =
      (⟨[BusEvent.select, BusEvent.transmit [0xAB], BusEvent.transmit [0x00, 0x00, 0x00],
         BusEvent.receive 1, BusEvent.deselect], []⟩, 0x16) :=
  ⟨⟨by decide, rfl⟩, DeviceID_trace ⟨[], [0x16]⟩ 0x16 [] (by decide) rfl, by decide⟩

/-- C17: `W15Q64_EraseProgram_Suspend`, `W15Q64_EraseProgram_Resume`, `W15Q64_PowerDown` and
`W15Q64_ReleasePowerDown` each add to the trace exactly select, transmit `[op]`, deselect,
with `op = 0x75`, `0x7A`, `0xB9` and `0xAB`: one bracket of one opcode byte, with no
address, dummy byte, payload or write-enable bracket, and the bytes the device would answer
are left untouched. -/
theorem opcode_only_operations (spi : W15Q64spi_t) :
    W15Q64_EraseProgram_Suspend spi =
      ⟨spi.trace ++ [BusEvent.select, BusEvent.transmit [0x75], BusEvent.deselect], spi.rx⟩
    ∧ W15Q64_EraseProgram_Resume spi =
      ⟨spi.trace ++ [BusEvent.select, BusEvent.transmit [0x7A], BusEvent.deselect], spi.rx⟩
    ∧ W15Q64_PowerDown spi =
      ⟨spi.trace ++ [BusEvent.select, BusEvent.transmit [0xB9], BusEvent.deselect], spi.rx⟩
    ∧ W15Q64_ReleasePowerDown spi =
      ⟨spi.trace ++ [BusEvent.select, BusEvent.transmit [0xAB], BusEvent.deselect], spi.rx⟩
    ∧ W15Q64_ERASE_PROGRAM_SUSPEND = 0x75 ∧ W15Q64_ERASE_PROGRAM_RESUME = 0x7A
    ∧ W15Q64_POWER_DOWN = 0xB9 ∧ W15Q64_RELEASE_POWER_DOWN = 0xAB :=
  ⟨EraseProgram_Suspend_eq spi, EraseProgram_Resume_eq spi, PowerDown_eq spi,
   ReleasePowerDown_eq spi, rfl, rfl, rfl, rfl⟩

/-- C18: for each of the 16 functions declared in the header and every input (the flag
arrays of the status structure having their 8 entries), the calls the function makes
hold as many `sc_ON` calls as `cs_OFF` calls; the two functions with a loop return. -/
theorem bracket_balance (spi : W15Q64spi_t) (addr : Nat) (buf : List Nat) (cnt op : Nat)
    (status : W15Q64statRegs_t)
    (h1 : status.reg1.length = 8) (h2 : status.reg2.length = 8) :
    (∃ spi', W15Q64_WriteStatRegs spi status = Except.ok spi' ∧
      selectCalls spi spi' = deselectCalls spi spi')
    ∧ (∃ spi' status', W15Q64_ReadStatRegs spi status = Except.ok (spi', status') ∧
      selectCalls spi spi' = deselectCalls spi spi')
    ∧ selectCalls spi (W15Q64_PageProg spi addr buf cnt) =
        deselectCalls spi (W15Q64_PageProg spi addr buf cnt)
    ∧ selectCalls spi (W15Q64_ReadSecReg spi addr buf cnt).1 =
        deselectCalls spi (W15Q64_ReadSecReg spi addr buf cnt).1
    ∧ selectCalls spi (W15Q64_ReadData spi addr).1 =
        deselectCalls spi (W15Q64_ReadData spi addr).1
    ∧ selectCalls spi (W15Q64_FastReadData spi addr buf cnt).1 =
        deselectCalls spi (W15Q64_FastReadData spi addr buf cnt).1
    ∧ selectCalls spi (W15Q64_Erase spi addr op) =
        deselectCalls spi (W15Q64_Erase spi addr op)
    ∧ selectCalls spi (W15Q64_SectorErase4KB spi addr) =
        deselectCalls spi (W15Q64_SectorErase4KB spi addr)
    ∧ selectCalls spi (W15Q64_BlockErase32KB spi addr) =
        deselectCalls spi (W15Q64_BlockErase32KB spi addr)
    ∧ selectCalls spi (W15Q64_BlockErase64KB spi addr) =
        deselectCalls spi (W15Q64_BlockErase64KB spi addr)
    ∧ selectCalls spi (W15Q64_ChipErase spi) = deselectCalls spi (W15Q64_ChipErase spi)
    ∧ selectCalls spi (W15Q64_EraseProgram_Suspend spi) =
        deselectCalls spi (W15Q64_EraseProgram_Suspend spi)
    ∧ selectCalls spi (W15Q64_EraseProgram_Resume spi) =
        deselectCalls spi (W15Q64_EraseProgram_Resume spi)
    ∧ selectCalls spi (W15Q64_PowerDown spi) = deselectCalls spi (W15Q64_PowerDown spi)
    ∧ selectCalls spi (W15Q64_ReleasePowerDown spi) =
        deselectCalls spi (W15Q64_ReleasePowerDown spi)
    ∧ selectCalls spi (W15Q64_DeviceID spi).1 = deselectCalls spi (W15Q64_DeviceID spi).1 := by
  obtain ⟨s1, hs1, _⟩ := BitsInByte_ok status.reg1 h1
  obtain ⟨s2, hs2, _⟩ := BitsInByte_ok status.reg2 h2
  obtain ⟨st, hst⟩ := ReadStatRegs_ok spi status h1 h2
  refine ⟨⟨_, WriteStatRegs_eq spi status s1 s2 hs1 hs2,
      balanced_of_trace _ _ _ rfl (by simp)⟩,
    ⟨_, _, hst, balanced_of_trace _ _ _ rfl (by simp)⟩,
    balanced_of_trace _ _ _ (by rw [PageProg_eq]) (by simp),
    balanced_of_trace _ _ _ (by rw [ReadSecReg_eq]) (by simp),
    balanced_of_trace _ _ _ (by rw [ReadData_eq]) (by simp),
    balanced_of_trace _ _ _ (by rw [FastReadData_eq]) (by simp),
    balanced_of_trace _ _ _ (by rw [Erase_eq]) (by simp),
    balanced_of_trace _ _ _ (by rw [W15Q64_SectorErase4KB, Erase_eq]) (by simp),
    balanced_of_trace _ _ _ (by rw [W15Q64_BlockErase32KB, Erase_eq]) (by simp),
    balanced_of_trace _ _ _ (by rw [W15Q64_BlockErase64KB, Erase_eq]) (by simp),
    balanced_of_trace _ _ _ (by rw [ChipErase_eq]) (by simp),
    balanced_of_trace _ _ _ (by rw [EraseProgram_Suspend_eq]) (by simp),
    balanced_of_trace _ _ _ (by rw [EraseProgram_Resume_eq]) (by simp),
    balanced_of_trace _ _ _ (by rw [PowerDown_eq]) (by simp),
    balanced_of_trace _ _ _ (by rw [ReleasePowerDown_eq]) (by simp),
    balanced_of_trace _ _ _ (by rw [DeviceID_eq]) (by simp)⟩

/-- C18, on a transport that already made calls, with a full status structure. -/
theorem bracket_balance_witness :
    ((List.replicate 8 true).length = 8 ∧ (List.replicate 8 false).length = 8) ∧
    (∃ spi', W15Q64_WriteStatRegs ⟨[BusEvent.select], [1, 2]⟩
        ⟨List.replicate 8 true, List.replicate 8 false⟩ = Except.ok spi' ∧
      selectCalls ⟨[BusEvent.select], [1, 2]⟩ spi' =
        deselectCalls ⟨[BusEvent.select], [1, 2]⟩ spi') ∧
    selectCalls ⟨[BusEvent.select], [1, 2]⟩
        (W15Q64_PageProg ⟨[BusEvent.select], [1, 2]⟩ 0x001000 [0xAA, 0xAA] 2) = 2 ∧
    deselectCalls ⟨[BusEvent.select], [1, 2]⟩
        (W15Q64_PageProg ⟨[BusEvent.select], [1, 2]⟩ 0x001000 [0xAA, 0xAA] 2) = 2 :=
  ⟨⟨rfl, rfl⟩,
   (bracket_balance ⟨[BusEvent.select], [1, 2]⟩ 0x001000 [0xAA, 0xAA] 2 0x20
      ⟨List.replicate 8 true, List.replicate 8 false⟩ rfl rfl).1,
   by decide, by decide⟩

/-- C19, refuted as stated: `W15Q64_ReadStatRegs`, a read-class operation, makes two
`sc_ON` calls, one bracket for each status register, not one. -/
theorem ReadStatRegs_makes_two_select_calls :
    W15Q64_ReadStatRegs ⟨[], [0x03, 0x80]⟩
        ⟨List.replicate 8 false, List.replicate 8 false⟩ =
      Except.ok
        (⟨[BusEvent.select, BusEvent.transmit [0x05], BusEvent.receive 1, BusEvent.deselect,
           BusEvent.select, BusEvent.transmit [0x35], BusEvent.receive 1, BusEvent.deselect],
          []⟩,
         ⟨[true, true, false, false, false, false, false, false],
          [false, false, false, false, false, false, false, true]⟩)
    ∧ selectCalls ⟨[], [0x03, 0x80]⟩
        ⟨[BusEvent.select, BusEvent.transmit [0x05], BusEvent.receive 1, BusEvent.deselect,
          BusEvent.select, BusEvent.transmit [0x35], BusEvent.receive 1, BusEvent.deselect],
         []⟩ = 2
    ∧ ¬ selectCalls ⟨[], [0x03, 0x80]⟩
        ⟨[BusEvent.select, BusEvent.transmit [0x05], BusEvent.receive 1, BusEvent.deselect,
          BusEvent.select, BusEvent.transmit [0x35], BusEvent.receive 1, BusEvent.deselect],
         []⟩ = 1 := by
  decide

/-- C19, amended: for every input, the number of `sc_ON` calls is exactly 1 for
`W15Q64_ReadData`, `W15Q64_FastReadData`, `W15Q64_ReadSecReg` and `W15Q64_DeviceID`, and
exactly 2 for `W15Q64_ReadStatRegs` (one bracket for each status register) and for
`W15Q64_PageProg`, `W15Q64_Erase`, `W15Q64_SectorErase4KB`, `W15Q64_BlockErase32KB` and
`W15Q64_BlockErase64KB`, whose first bracket is the write-enable one. -/
theorem bracket_count (spi : W15Q64spi_t) (addr : Nat) (buf : List Nat) (cnt op : Nat)
    (status : W15Q64statRegs_t)
    (h1 : status.reg1.length = 8) (h2 : status.reg2.length = 8) :
    selectCalls spi (W15Q64_ReadData spi addr).1 = 1
    ∧ selectCalls spi (W15Q64_FastReadData spi addr buf cnt).1 = 1
    ∧ selectCalls spi (W15Q64_ReadSecReg spi addr buf cnt).1 = 1
    ∧ selectCalls spi (W15Q64_DeviceID spi).1 = 1
    ∧ (∃ spi' status', W15Q64_ReadStatRegs spi status = Except.ok (spi', status') ∧
        selectCalls spi spi' = 2 ∧
        emitted spi spi' =
          [BusEvent.select, BusEvent.transmit [0x05], BusEvent.receive 1, BusEvent.deselect,
           BusEvent.select, BusEvent.transmit [0x35], BusEvent.receive 1, BusEvent.deselect])
    ∧ (selectCalls spi (W15Q64_PageProg spi addr buf cnt) = 2 ∧
        (emitted spi (W15Q64_PageProg spi addr buf cnt)).take 3 =
          [BusEvent.select, BusEvent.transmit [0x06], BusEvent.deselect])
    ∧ (selectCalls spi (W15Q64_Erase spi addr op) = 2 ∧
        (emitted spi (W15Q64_Erase spi addr op)).take 3 =
          [BusEvent.select, BusEvent.transmit [0x06], BusEvent.deselect])
    ∧ (selectCalls spi (W15Q64_SectorErase4KB spi addr) = 2 ∧
        (emitted spi (W15Q64_SectorErase4KB spi addr)).take 3 =
          [BusEvent.select, BusEvent.transmit [0x06], BusEvent.deselect])
    ∧ (selectCalls spi (W15Q64_BlockErase32KB spi addr) = 2 ∧
        (emitted spi (W15Q64_BlockErase32KB spi addr)).take 3 =
          [BusEvent.select, BusEvent.transmit [0x06], BusEvent.deselect])
    ∧ (selectCalls spi (W15Q64_BlockErase64KB spi addr) = 2 ∧
        (emitted spi (W15Q64_BlockErase64KB spi addr)).take 3 =
          [BusEvent.select, BusEvent.transmit [0x06], BusEvent.deselect]) := by
  obtain ⟨st, hst⟩ := ReadStatRegs_ok spi status h1 h2
  refine ⟨selectCalls_of_trace _ _ _ 1 (by rw [ReadData_eq]) (by simp),
    selectCalls_of_trace _ _ _ 1 (by rw [FastReadData_eq]) (by simp),
    selectCalls_of_trace _ _ _ 1 (by rw [ReadSecReg_eq]) (by simp),
    selectCalls_of_trace _ _ _ 1 (by rw [DeviceID_eq]) (by simp),
    ⟨_, _, hst, selectCalls_of_trace _ _ _ 2 rfl (by simp), emitted_of_trace _ _ _ rfl⟩,
    ⟨selectCalls_of_trace _ _ _ 2 (by rw [PageProg_eq]) (by simp),
      by rw [emitted_of_trace _ _ _ (by rw [PageProg_eq])]; rfl⟩,
    ⟨selectCalls_of_trace _ _ _ 2 (by rw [Erase_eq]) (by simp),
      by rw [emitted_of_trace _ _ _ (by rw [Erase_eq])]; rfl⟩,
    ⟨selectCalls_of_trace _ _ _ 2 (by rw [W15Q64_SectorErase4KB, Erase_eq]) (by simp),
      by rw [emitted_of_trace _ _ _ (by rw [W15Q64_SectorErase4KB, Erase_eq])]; rfl⟩,
    ⟨selectCalls_of_trace _ _ _ 2 (by rw [W15Q64_BlockErase32KB, Erase_eq]) (by simp),
      by rw [emitted_of_trace _ _ _ (by rw [W15Q64_BlockErase32KB, Erase_eq])]; rfl⟩,
    ⟨selectCalls_of_trace _ _ _ 2 (by rw [W15Q64_BlockErase64KB, Erase_eq]) (by simp),
      by rw [emitted_of_trace _ _ _ (by rw [W15Q64_BlockErase64KB, Erase_eq])]; rfl⟩⟩

/-- C19 amended, on a transport that already made calls. -/
theorem bracket_count_witness :
    ((List.replicate 8 true).length = 8 ∧ (List.replicate 8 false).length = 8) ∧
    selectCalls ⟨[BusEvent.select, BusEvent.deselect], [7]⟩
      (W15Q64_ReadData ⟨[BusEvent.select, BusEvent.deselect], [7]⟩ 0x001000).1 = 1 ∧
    (selectCalls ⟨[BusEvent.select, BusEvent.deselect], [7]⟩
      (W15Q64_PageProg ⟨[BusEvent.select, BusEvent.deselect], [7]⟩ 0x001000 [1, 2] 2) = 2 ∧
     (emitted ⟨[BusEvent.select, BusEvent.deselect], [7]⟩
      (W15Q64_PageProg ⟨[BusEvent.select, BusEvent.deselect], [7]⟩ 0x001000 [1, 2] 2)).take 3 =
        [BusEvent.select, BusEvent.transmit [0x06], BusEvent.deselect]) :=
  ⟨⟨rfl, rfl⟩,
   (bracket_count ⟨[BusEvent.select, BusEvent.deselect], [7]⟩ 0x001000 [1, 2] 2 0x20
      ⟨List.replicate 8 true, List.replicate 8 false⟩ rfl rfl).1,
   (bracket_count ⟨[BusEvent.select, BusEvent.deselect], [7]⟩ 0x001000 [1, 2] 2 0x20
      ⟨List.replicate 8 true, List.replicate 8 false⟩ rfl rfl).2.2.2.2.2.1⟩

/-- C20: for every pair of 8-flag arrays (`reg1`, `reg2`), `W15Q64_BitsInByte` returns bytes
`s1`, `s2`, and decoding `s1`, `s2` with the loop of `W15Q64_ReadStatRegs` gives back exactly
(`reg1`, `reg2`), whatever the status structure held before; conversely, encoding the flags
decoded from any bytes `b1`, `b2` gives back `b1`, `b2`. In particular `s1`, `s2` are the two
bytes `W15Q64_WriteStatRegs` transmits, and when the transport answers with them
`W15Q64_ReadStatRegs` returns (`reg1`, `reg2`). -/
theorem status_flags_round_trip (spiW spiR : W15Q64spi_t) (status prev : W15Q64statRegs_t)
    (rest : List Nat)
    (h1 : status.reg1.length = 8) (h2 : status.reg2.length = 8)
    (p1 : prev.reg1.length = 8) (p2 : prev.reg2.length = 8) :
    (∃ s1 s2 spiW',
      W15Q64_BitsInByte status.reg1 = Except.ok s1 ∧ s1 < 256 ∧
      W15Q64_BitsInByte status.reg2 = Except.ok s2 ∧ s2 < 256 ∧
      W15Q64_ReadStatRegs_loop s1 s2 loopFuel 0 prev = Except.ok status ∧
      W15Q64_WriteStatRegs spiW status = Except.ok spiW' ∧
      lastBracket spiW'.trace =
        [BusEvent.select, BusEvent.transmit [0x01], BusEvent.transmit [s1, s2],
         BusEvent.deselect] ∧
      ∃ spiR', W15Q64_ReadStatRegs ⟨spiR.trace, s1 :: s2 :: rest⟩ prev =
        Except.ok (spiR', status))
    ∧ (∀ b1 b2, b1 < 256 → b2 < 256 →
        ∃ decoded, W15Q64_ReadStatRegs_loop b1 b2 loopFuel 0 prev = Except.ok decoded ∧
          decoded.reg1.length = 8 ∧ decoded.reg2.length = 8 ∧
          W15Q64_BitsInByte decoded.reg1 = Except.ok b1 ∧
          W15Q64_BitsInByte decoded.reg2 = Except.ok b2) := by
  obtain ⟨s1, s2, hs1, hl1, hs2, hl2, hdec⟩ := encode_then_decode status prev h1 h2 p1 p2
  refine ⟨⟨s1, s2, _, hs1, hl1, hs2, hl2, hdec, WriteStatRegs_eq spiW status s1 s2 hs1 hs2,
    lastBracket_append spiW.trace _ (by simp),
    ⟨_, ReadStatRegs_of_loop ⟨spiR.trace, s1 :: s2 :: rest⟩ s1 s2 rest rfl prev status hdec⟩⟩,
    fun b1 b2 hb1 hb2 => ?_⟩
  obtain ⟨st, hst, l1, l2, _, _, he1, he2⟩ := decode_then_encode b1 b2 hb1 hb2 prev p1 p2
  exact ⟨st, hst, l1, l2, he1, he2⟩

/-- C20, at `reg1` with BUSY and WEL set and `reg2` with SUS set, read back into a status
structure that held other values: the bytes on the wire are `0x03` and `0x80`. -/
theorem status_flags_round_trip_witness :
    (([true, true, false, false, false, false, false, false] : List Bool).length = 8 ∧
     ([false, false, false, false, false, false, false, true] : List Bool).length = 8 ∧
     (List.replicate 8 true).length = 8 ∧ (List.replicate 8 true).length = 8) ∧
    (∃ s1 s2 spiW',
      W15Q64_BitsInByte [true, true, false, false, false, false, false, false] =
        Except.ok s1 ∧ s1 < 256 ∧
      W15Q64_BitsInByte [false, false, false, false, false, false, false, true] =
        Except.ok s2 ∧ s2 < 256 ∧
      W15Q64_ReadStatRegs_loop s1 s2 loopFuel 0
          ⟨List.replicate 8 true, List.replicate 8 true⟩ =
        Except.ok ⟨[true, true, false, false, false, false, false, false],
          [false, false, false, false, false, false, false, true]⟩ ∧
      W15Q64_WriteStatRegs ⟨[], []⟩
          ⟨[true, true, false, false, false, false, false, false],
           [false, false, false, false, false, false, false, true]⟩ = Except.ok spiW' ∧
      lastBracket spiW'.trace =
        [BusEvent.select, BusEvent.transmit [0x01], BusEvent.transmit [s1, s2],
         BusEvent.deselect] ∧
      ∃ spiR', W15Q64_ReadStatRegs ⟨[], s1 :: s2 :: []⟩
          ⟨List.replicate 8 true, List.replicate 8 true⟩ =
        Except.ok (spiR', ⟨[true, true, false, false, false, false, false, false],
          [false, false, false, false, false, false, false, true]⟩)) ∧
    W15Q64_ReadStatRegs ⟨[], [0x03, 0x80]⟩ ⟨List.replicate 8 true, List.replicate 8 true⟩ =
      Except.ok
        (⟨[BusEvent.select, BusEvent.transmit [0x05], BusEvent.receive 1, BusEvent.deselect,
           BusEvent.select, BusEvent.transmit [0x35], BusEvent.receive 1, BusEvent.deselect],
          []⟩,
         ⟨[true, true, false, false, false, false, false, false],
          [false, false, false, false, false, false, false, true]⟩) :=
  ⟨⟨rfl, rfl, rfl, rfl⟩,
   (status_flags_round_trip ⟨[], []⟩ ⟨[], []⟩
      ⟨[true, true, false, false, false, false, false, false],
       [false, false, false, false, false, false, false, true]⟩
      ⟨List.replicate 8 true, List.replicate 8 true⟩ [] rfl rfl rfl rfl).1,
   by decide⟩

/-- C21: for each of the 16 functions declared in the header and every input (the flag
arrays of the status structure having their 8 entries), the events the function adds to
the trace are a concatenation of one or more brackets, each of them select, a transmit of
exactly one byte, zero or more further transmits and receives, deselect; and in them no
select comes while the chip is selected, no deselect while it is released and no transmit
or receive while it is released. The two functions with a loop return. -/
theorem traces_well_bracketed (spi : W15Q64spi_t) (addr : Nat) (buf : List Nat)
    (cnt op : Nat) (status : W15Q64statRegs_t)
    (h1 : status.reg1.length = 8) (h2 : status.reg2.length = 8) :
    (∃ spi', W15Q64_WriteStatRegs spi status = Except.ok spi' ∧
      WellBracketed (emitted spi spi'))
    ∧ (∃ spi' status', W15Q64_ReadStatRegs spi status = Except.ok (spi', status') ∧
      WellBracketed (emitted spi spi'))
    ∧ WellBracketed (emitted spi (W15Q64_PageProg spi addr buf cnt))
    ∧ WellBracketed (emitted spi (W15Q64_ReadSecReg spi addr buf cnt).1)
    ∧ WellBracketed (emitted spi (W15Q64_ReadData spi addr).1)
    ∧ WellBracketed (emitted spi (W15Q64_FastReadData spi addr buf cnt).1)
    ∧ WellBracketed (emitted spi (W15Q64_Erase spi addr op))
    ∧ WellBracketed (emitted spi (W15Q64_SectorErase4KB spi addr))
    ∧ WellBracketed (emitted spi (W15Q64_BlockErase32KB spi addr))
    ∧ WellBracketed (emitted spi (W15Q64_BlockErase64KB spi addr))
    ∧ WellBracketed (emitted spi (W15Q64_ChipErase spi))
    ∧ WellBracketed (emitted spi (W15Q64_EraseProgram_Suspend spi))
    ∧ WellBracketed (emitted spi (W15Q64_EraseProgram_Resume spi))
    ∧ WellBracketed (emitted spi (W15Q64_PowerDown spi))
    ∧ WellBracketed (emitted spi (W15Q64_ReleasePowerDown spi))
    ∧ WellBracketed (emitted spi (W15Q64_DeviceID spi).1) := by
  obtain ⟨s1, hs1, _⟩ := BitsInByte_ok status.reg1 h1
  obtain ⟨s2, hs2, _⟩ := BitsInByte_ok status.reg2 h2
  obtain ⟨st, hst⟩ := ReadStatRegs_ok spi status h1 h2
  refine ⟨⟨_, WriteStatRegs_eq spi status s1 s2 hs1 hs2, ?_⟩, ⟨_, _, hst, ?_⟩,
    ?_, ?_, ?_, ?_, ?_, ?_, ?_, ?_, ?_, ?_, ?_, ?_, ?_, ?_⟩
  · rw [emitted_of_trace _ _ _ rfl]
    exact wb_single 0x01 [BusEvent.transmit [s1, s2]] rfl
  · rw [emitted_of_trace _ _ _ rfl]
    exact wb_double 0x05 [BusEvent.receive 1] 0x35 [BusEvent.receive 1] rfl rfl
  · rw [emitted_of_trace _ _ _ (by rw [PageProg_eq])]
    exact wb_double 0x06 [] 0x02
      [BusEvent.transmit (W15Q64_AddrTo3Arr addr),
       BusEvent.transmit (buf.take (min cnt 256))] rfl rfl
  · rw [emitted_of_trace _ _ _ (by rw [ReadSecReg_eq])]
    exact wb_single 0x48
      [BusEvent.transmit (W15Q64_AddrTo3Arr addr), BusEvent.transmit [0x00],
       BusEvent.transmit (buf.take cnt)] rfl
  · rw [emitted_of_trace _ _ _ (by rw [ReadData_eq])]
    exact wb_single 0x03
      [BusEvent.transmit (W15Q64_AddrTo3Arr addr), BusEvent.receive 1] rfl
  · rw [emitted_of_trace _ _ _ (by rw [FastReadData_eq])]
    exact wb_single 0x0B
      [BusEvent.transmit (W15Q64_AddrTo3Arr addr), BusEvent.transmit [0x00],
       BusEvent.receive cnt] rfl
  · rw [emitted_of_trace _ _ _ (by rw [Erase_eq])]
    exact wb_double 0x06 [] op [BusEvent.transmit (W15Q64_AddrTo3Arr addr)] rfl rfl
  · rw [emitted_of_trace _ _ _ (by rw [W15Q64_SectorErase4KB, Erase_eq])]
    exact wb_double 0x06 [] _ [BusEvent.transmit (W15Q64_AddrTo3Arr addr)] rfl rfl
  · rw [emitted_of_trace _ _ _ (by rw [W15Q64_BlockErase32KB, Erase_eq])]
    exact wb_double 0x06 [] _ [BusEvent.transmit (W15Q64_AddrTo3Arr addr)] rfl rfl
  · rw [emitted_of_trace _ _ _ (by rw [W15Q64_BlockErase64KB, Erase_eq])]
    exact wb_double 0x06 [] _ [BusEvent.transmit (W15Q64_AddrTo3Arr addr)] rfl rfl
  · rw [emitted_of_trace _ _ _ (by rw [ChipErase_eq])]
    exact wb_single 0xC7 [] rfl
  · rw [emitted_of_trace _ _ _ (by rw [EraseProgram_Suspend_eq])]
    exact wb_single 0x75 [] rfl
  · rw [emitted_of_trace _ _ _ (by rw [EraseProgram_Resume_eq])]
    exact wb_single 0x7A [] rfl
  · rw [emitted_of_trace _ _ _ (by rw [PowerDown_eq])]
    exact wb_single 0xB9 [] rfl
  · rw [emitted_of_trace _ _ _ (by rw [ReleasePowerDown_eq])]
    exact wb_single 0xAB [] rfl
  · rw [emitted_of_trace _ _ _ (by rw [DeviceID_eq])]
    exact wb_single 0xAB [BusEvent.transmit [0x00, 0x00, 0x00], BusEvent.receive 1] rfl

/-- C21, for a page program of two bytes on a transport that already made calls: its
events are the write-enable bracket and the program bracket. -/
theorem traces_well_bracketed_witness :
    ((List.replicate 8 true).length = 8 ∧ (List.replicate 8 false).length = 8) ∧
    WellBracketed (emitted ⟨[BusEvent.select, BusEvent.deselect], []⟩
      (W15Q64_PageProg ⟨[BusEvent.select, BusEvent.deselect], []⟩ 0x001000 [1, 2] 2)) ∧
    emitted ⟨[BusEvent.select, BusEvent.deselect], []⟩
      (W15Q64_PageProg ⟨[BusEvent.select, BusEvent.deselect], []⟩ 0x001000 [1, 2] 2) =
      List.flatten
        [[BusEvent.select, BusEvent.transmit [0x06], BusEvent.deselect],
         [BusEvent.select, BusEvent.transmit [0x02], BusEvent.transmit [0x00, 0x10, 0x00],
          BusEvent.transmit [1, 2], BusEvent.deselect]] ∧
    isBracket [BusEvent.select, BusEvent.transmit [0x06], BusEvent.deselect] = true ∧
    isBracket [BusEvent.select, BusEvent.transmit [0x02],
      BusEvent.transmit [0x00, 0x10, 0x00], BusEvent.transmit [1, 2],
      BusEvent.deselect] = true ∧
    isBracket [BusEvent.select, BusEvent.transmit [0x02, 0x00], BusEvent.deselect] = false ∧
    lineOK false [BusEvent.select, BusEvent.select] = false :=
  ⟨⟨rfl, rfl⟩,
   (traces_well_bracketed ⟨[BusEvent.select, BusEvent.deselect], []⟩ 0x001000 [1, 2] 2 0x20
      ⟨List.replicate 8 true, List.replicate 8 false⟩ rfl rfl).2.2.1,
   by decide, by decide, by decide, by decide, by decide⟩

/-- C22: with flag arrays of exactly 8 entries, the loop of `W15Q64_BitsInByte` and the loop
of `W15Q64_ReadStatRegs` leave after exactly 8 rounds (fuel for 9 tests of the loop
condition, or more, gives the result; fuel for 8 or fewer runs out), and no read or write
through the counter falls outside the 8-entry mask tables or the flag arrays; entries a
longer array holds past index 7 are neither read nor written. This holds for both
registers, the encode loop running to `W15Q64_SRP0 = 7` for register 2 as well. -/
theorem bit_loops_terminate_in_bounds (f : List Bool) (status : W15Q64statRegs_t)
    (r1 r2 : Nat) (hf : f.length = 8)
    (h1 : status.reg1.length = 8) (h2 : status.reg2.length = 8) :
    (∃ s, W15Q64_BitsInByte f = Except.ok s ∧
      ∀ fuel, 9 ≤ fuel → W15Q64_BitsInByte_loop f fuel 0 0 = Except.ok s)
    ∧ (∀ fuel, fuel ≤ 8 → W15Q64_BitsInByte_loop f fuel 0 0 = Except.error Fault.outOfFuel)
    ∧ (∀ extra, W15Q64_BitsInByte (f ++ extra) = W15Q64_BitsInByte f)
    ∧ (∃ decoded, W15Q64_ReadStatRegs_loop r1 r2 loopFuel 0 status = Except.ok decoded ∧
        decoded.reg1.length = 8 ∧ decoded.reg2.length = 8 ∧
        (∀ fuel, 9 ≤ fuel →
          W15Q64_ReadStatRegs_loop r1 r2 fuel 0 status = Except.ok decoded) ∧
        (∀ x1 x2, W15Q64_ReadStatRegs_loop r1 r2 loopFuel 0
            ⟨status.reg1 ++ x1, status.reg2 ++ x2⟩ =
          Except.ok ⟨decoded.reg1 ++ x1, decoded.reg2 ++ x2⟩))
    ∧ (∀ fuel, fuel ≤ 8 →
        W15Q64_ReadStatRegs_loop r1 r2 fuel 0 status = Except.error Fault.outOfFuel)
    ∧ (∃ s1 s2, W15Q64_BitsInByte status.reg1 = Except.ok s1 ∧
        W15Q64_BitsInByte status.reg2 = Except.ok s2 ∧
        ∀ spi, ∃ spi', W15Q64_WriteStatRegs spi status = Except.ok spi')
    ∧ byteMask.length = 8 ∧ byteMask_if_true.length = 8 ∧ byteMask_if_false.length = 8
    ∧ W15Q64_SRP0 = 7 := by
  obtain ⟨s1, hs1, _⟩ := BitsInByte_ok status.reg1 h1
  obtain ⟨s2, hs2, _⟩ := BitsInByte_ok status.reg2 h2
  have hext : ∀ extra, W15Q64_BitsInByte (f ++ extra) = W15Q64_BitsInByte f :=
    fun extra => BitsInByte_ignores_tail f extra hf
  obtain ⟨f0, f1, f2, f3, f4, f5, f6, f7, rfl⟩ := eight_of_length f hf
  obtain ⟨reg1, reg2⟩ := status
  obtain ⟨a0, a1, a2, a3, a4, a5, a6, a7, rfl⟩ := eight_of_length reg1 h1
  obtain ⟨c0, c1, c2, c3, c4, c5, c6, c7, rfl⟩ := eight_of_length reg2 h2
  have hnine := BitsInByte_loop_nine f0 f1 f2 f3 f4 f5 f6 f7
  have height := BitsInByte_eight f0 f1 f2 f3 f4 f5 f6 f7
  refine ⟨⟨_, height, ?_⟩, BitsInByte_loop_short _ hnine.2, hext,
    ⟨_, ReadStatRegs_loop_eight r1 r2 a0 a1 a2 a3 a4 a5 a6 a7 c0 c1 c2 c3 c4 c5 c6 c7,
      rfl, rfl, ?_, ?_⟩,
    fun fuel hfuel => ReadStatRegs_loop_short r1 r2 fuel hfuel a0 a1 a2 a3 a4 a5 a6 a7
      c0 c1 c2 c3 c4 c5 c6 c7,
    ⟨s1, s2, hs1, hs2, fun spi => ⟨_, WriteStatRegs_eq spi _ s1 s2 hs1 hs2⟩⟩,
    rfl, rfl, rfl, rfl⟩
  · exact BitsInByte_loop_enough _ _ (by intro h; cases h) 9 (hnine.1.trans height)
  · intro fuel hfuel
    obtain ⟨k, rfl⟩ := Nat.exists_eq_add_of_le' hfuel
    rw [ReadStatRegs_loop_fuel, ReadStatRegs_loop_eight]
  · intro x1 x2
    exact ReadStatRegs_loop_tail r1 r2 a0 a1 a2 a3 a4 a5 a6 a7 c0 c1 c2 c3 c4 c5 c6 c7 x1 x2

/-- C22, at the flags of `0x83` and the bytes `0x03`, `0x80`; with one entry fewer the
last round of either loop falls outside the array. -/
theorem bit_loops_terminate_in_bounds_witness :
    (([true, true, false, false, false, false, false, true] : List Bool).length = 8 ∧
      (List.replicate 8 false).length = 8 ∧ (List.replicate 8 true).length = 8) ∧
    (∃ s, W15Q64_BitsInByte [true, true, false, false, false, false, false, true] =
        Except.ok s ∧
      ∀ fuel, 9 ≤ fuel →
        W15Q64_BitsInByte_loop [true, true, false, false, false, false, false, true]
          fuel 0 0 = Except.ok s) ∧
    (∀ fuel, fuel ≤ 8 →
      W15Q64_ReadStatRegs_loop 0x03 0x80 fuel 0
        ⟨List.replicate 8 false, List.replicate 8 true⟩ = Except.error Fault.outOfFuel) ∧
    W15Q64_BitsInByte_loop [true, true, false, false, false, false, false, true] 9 0 0 =
      Except.ok 0x83 ∧
    W15Q64_BitsInByte_loop [true, true, false, false, false, false, false, true] 8 0 0 =
      Except.error Fault.outOfFuel ∧
    W15Q64_BitsInByte [true, true, false, false, false, false, false] =
      Except.error Fault.outOfBounds ∧
    W15Q64_ReadStatRegs_loop 0x03 0x80 loopFuel 0
        ⟨List.replicate 8 false, List.replicate 7 true⟩ = Except.error Fault.outOfBounds :=
  ⟨⟨rfl, rfl, rfl⟩,
   (bit_loops_terminate_in_bounds [true, true, false, false, false, false, false, true]
      ⟨List.replicate 8 false, List.replicate 8 true⟩ 0x03 0x80 rfl rfl rfl).1,
   (bit_loops_terminate_in_bounds [true, true, false, false, false, false, false, true]
      ⟨List.replicate 8 false, List.replicate 8 true⟩ 0x03 0x80 rfl rfl rfl).2.2.2.2.1,
   by decide, by decide, by decide, by decide⟩

/-- C23: `W15Q64_WriteEn`, `W15Q64_WriteEnStatReg` and `W15Q64_WriteDis` each add to the
trace exactly select, transmit `[op]`, deselect, with `op = 0x06`, `0x50` and `0x04`, the
values of `W15Q64_WRITE_ENABLE`, `W15Q64_VOLATILE_SR_WRITE_EN` and `W15Q64_WRITE_DIS`, and
leave the bytes the device would answer untouched. -/
theorem helper_brackets (spi : W15Q64spi_t) :
    W15Q64_WriteEn spi =
      ⟨spi.trace ++ [BusEvent.select, BusEvent.transmit [0x06], BusEvent.deselect], spi.rx⟩
    ∧ W15Q64_WriteEnStatReg spi =
      ⟨spi.trace ++ [BusEvent.select, BusEvent.transmit [0x50], BusEvent.deselect], spi.rx⟩
    ∧ W15Q64_WriteDis spi =
      ⟨spi.trace ++ [BusEvent.select, BusEvent.transmit [0x04], BusEvent.deselect], spi.rx⟩
    ∧ W15Q64_WRITE_ENABLE = 0x06 ∧ W15Q64_VOLATILE_SR_WRITE_EN = 0x50
    ∧ W15Q64_WRITE_DIS = 0x04 := by
  refine ⟨WriteEn_eq spi, ?_, ?_, rfl, rfl, rfl⟩
  · simp [W15Q64_WriteEnStatReg, W15Q64_VOLATILE_SR_WRITE_EN, sc_ON, cs_OFF, transmit]
  · simp [W15Q64_WriteDis, W15Q64_WRITE_DIS, sc_ON, cs_OFF, transmit]

end W15Q64
